import Mathlib

/-!
QBO-Sheets-Connector: verification of the Dataset Execution & Scheduling Engine

Shallow embedding of the connector's core logic, translated from the
Google-Apps-Script sources:

* `src/unnamed/part_002` — resilient API client `qboFetch_`, `normalizeTable_`
* `src/unnamed/part_000` — legacy client `makeAuthenticatedRequest`
* `src/unnamed/part_005` — `runCustomQuery`, `parseQuery`,
  `convertReportToSheetData`, `convertEntitiesToSheetData`
* `src/unnamed/part_003` — legacy `parseQuery` variant (with entity allow-list)
* `src/unnamed/part_006` — dataset registry, `runDataset`, `writeDataToSheet`,
  `updateDatasetsIndex`, `validateDataset`
* `src/Scheduler.gs` — `scheduledDatasetRun`, `removeScheduleTrigger`

Modelling conventions: the HTTP layer is a list of pre-recorded responses
consumed one per request; `Math.random()` jitter is an explicit function
parameter; wall-clock sleeps and log writes are not observable and are not
modelled; JS exceptions become `Except String`; machine numbers are `Nat`
(all quantities involved are non-negative integers in the source).
-/

/-- An HTTP response as observed by the client: the status code and the
parsed `Retry-After` header (`0` when the header is absent, matching
`Number(responseHeaders['Retry-After'] || 0)` in the source). -/
structure HttpResponse where
  status : Nat
  retryAfter : Nat
deriving DecidableEq, Repr

/-- Terminal result of `qboFetch_` (part_002). -/
inductive FetchResult where
  /-- 2xx: parsed JSON body returned (body content abstracted away). -/
  | ok (status : Nat)
  /-- second 401: `svc.reset()` then `throw` of the auth-expired error. -/
  | authError
  /-- any other terminal `throw new Error(message)`. -/
  | httpError (status : Nat)
  /-- model artifact: the pre-recorded response stream ran out. -/
  | exhausted
deriving DecidableEq, Repr

/-- Observable effects of one `qboFetch_` call tree. -/
structure FetchOutcome where
  result : FetchResult
  /-- number of `UrlFetchApp.fetch` calls issued. -/
  requests : Nat
  /-- number of `svc.refresh()` calls. -/
  refreshes : Nat
  /-- whether `svc.reset()` was called (session invalidated). -/
  resetCalled : Bool
  /-- the `Math.min(30000, Math.pow(2, attemptNumber) * 250)` value computed
  for each backoff sleep, in order. -/
  baseDelays : List Nat
  /-- the actual `waitMs` slept before each retry, in order. -/
  waits : List Nat
deriving DecidableEq, Repr

/-- `baseDelay` of `qboFetch_`: `Math.min(30000, Math.pow(2, attemptNumber) * 250)`. -/
def backoffBase (attempt : Nat) : Nat := min 30000 (2 ^ attempt * 250)

/-- Shallow embedding of `qboFetch_(url, options, attempt)` (part_002,
lines 26–110).  `jitter a` stands for the `Math.floor(Math.random() * 250)`
drawn on the retry after attempt `a`; `resps` is the stream of responses the
server produces for the successive requests.  Branch order follows the
source: 2xx success; 401 on attempt 1 → `svc.refresh()` (its own failure is
swallowed by the source's try/catch) and recurse; 429/5xx below the attempt
ceiling (6) → sleep `Retry-After` seconds if the header is positive, else
`baseDelay + jitter`, and recurse; remaining 401 → `svc.reset()` and throw;
anything else → throw. -/
def qboFetch_ (jitter : Nat → Nat) : List HttpResponse → Nat → FetchOutcome
  | [], _ =>
    { result := .exhausted, requests := 0, refreshes := 0, resetCalled := false,
      baseDelays := [], waits := [] }
  | r :: rest, attempt =>
    if 200 ≤ r.status ∧ r.status < 300 then
      { result := .ok r.status, requests := 1, refreshes := 0, resetCalled := false,
        baseDelays := [], waits := [] }
    else if r.status = 401 ∧ attempt = 1 then
      let k := qboFetch_ jitter rest (attempt + 1)
      { k with requests := k.requests + 1, refreshes := k.refreshes + 1 }
    else if (r.status = 429 ∨ (500 ≤ r.status ∧ r.status ≤ 504)) ∧ attempt < 6 then
      let base := backoffBase attempt
      let wait := if 0 < r.retryAfter then r.retryAfter * 1000 else base + jitter attempt
      let k := qboFetch_ jitter rest (attempt + 1)
      { k with requests := k.requests + 1,
               baseDelays := base :: k.baseDelays, waits := wait :: k.waits }
    else if r.status = 401 then
      { result := .authError, requests := 1, refreshes := 0, resetCalled := true,
        baseDelays := [], waits := [] }
    else
      { result := .httpError r.status, requests := 1, refreshes := 0, resetCalled := false,
        baseDelays := [], waits := [] }

/-- Observable effects of one `makeAuthenticatedRequest` call (part_000). -/
structure AuthReqOutcome where
  /-- the `HTTPResponse` object returned to the caller, or the thrown error. -/
  result : Except String HttpResponse
  requests : Nat
  /-- `service.refresh()` calls triggered by a 401. -/
  refreshes : Nat
  /-- `makeAuthenticatedRequest` never calls `service.reset()`. -/
  resetCalled : Bool
deriving Repr

/-- Shallow embedding of `makeAuthenticatedRequest(url, options)` (part_000,
lines 239–291).  `hasAccess`/`hasRealm` model `service.hasAccess()` and the
stored `QBO_REALM_ID`; `refreshThrows` models `service.refresh()` raising on
the 401 path (unlike `qboFetch_`, this call is not wrapped in try/catch, so
the error propagates).  The conditional pre-emptive `refreshAccessToken()`
(time-based, not 401-triggered) is part of the environment and not counted
in `refreshes`.  On a 401 the function refreshes, retries once, and returns
the retry response unconditionally — whatever its status. -/
def makeAuthenticatedRequest (hasAccess hasRealm refreshThrows : Bool) :
    List HttpResponse → AuthReqOutcome
  | [] =>
    if !hasAccess then
      { result := .error "Not authenticated. Please connect to QuickBooks first.",
        requests := 0, refreshes := 0, resetCalled := false }
    else if !hasRealm then
      { result := .error "No QuickBooks company selected. Please reconnect.",
        requests := 0, refreshes := 0, resetCalled := false }
    else
      { result := .error "model: response stream exhausted",
        requests := 0, refreshes := 0, resetCalled := false }
  | r :: rest =>
    if !hasAccess then
      { result := .error "Not authenticated. Please connect to QuickBooks first.",
        requests := 0, refreshes := 0, resetCalled := false }
    else if !hasRealm then
      { result := .error "No QuickBooks company selected. Please reconnect.",
        requests := 0, refreshes := 0, resetCalled := false }
    else if r.status = 401 then
      if refreshThrows then
        { result := .error "token refresh failed", requests := 1, refreshes := 1,
          resetCalled := false }
      else
        match rest with
        | [] =>
          { result := .error "model: response stream exhausted", requests := 1,
            refreshes := 1, resetCalled := false }
        | r2 :: _ =>
          { result := .ok r2, requests := 2, refreshes := 1, resetCalled := false }
    else
      { result := .ok r, requests := 1, refreshes := 0, resetCalled := false }

/-! ## Query parser

The source parses queries with case-insensitive regexes over the
whitespace-normalized query text (`query.trim().replace(/\s+/g, ' ')`).
We model the normalized query as its list of whitespace-separated words
(tokens); clause keywords in the source regexes are bounded by `\s+` on the
relevant sides, so they align with token boundaries in this representation
(substring matches of keywords inside larger words are out of model). -/

/-- JS `\w` character class: `[A-Za-z0-9_]`. -/
def isWordChar (c : Char) : Bool := c.isAlpha || c.isDigit || c = '_'

/-- Longest `\w*` prefix of a token (what `(\w+)` captures when anchored at
the token start). -/
def wordPrefix (s : String) : String := String.mk (s.toList.takeWhile isWordChar)

/-- Longest `\d*` prefix of a token (what `(\d+)` captures). -/
def digitPrefix (s : String) : String := String.mk (s.toList.takeWhile Char.isDigit)

/-- ASCII lower-casing of one character (JS `toLowerCase` restricted to
ASCII, which covers every keyword the `/i` regexes match). -/
def lcChar (c : Char) : Char :=
  if 'A' ≤ c ∧ c ≤ 'Z' then Char.ofNat (c.toNat + 32) else c

/-- Lower-cased token, for the `/i` regex flag. -/
def lcTok (s : String) : String := String.mk (s.toList.map lcChar)

/-- The numeric value `parseInt` yields for a (non-empty) digit string. -/
def digitsToNat (s : String) : Option Nat :=
  if s.toList.isEmpty then none
  else some (s.toList.foldl (fun acc c => acc * 10 + (c.toNat - '0'.toNat)) 0)

/-- ASCII upper-casing of one character (JS `toUpperCase`). -/
def ucChar (c : Char) : Char :=
  if 'a' ≤ c ∧ c ≤ 'z' then Char.ofNat (c.toNat - 32) else c

/-- ASCII upper-cased string (JS `toUpperCase`). -/
def ucStr (s : String) : String := String.mk (s.toList.map ucChar)

/-- JS `trim()`: strip whitespace from both ends. -/
def trimStr (s : String) : String :=
  String.mk (((s.toList.dropWhile Char.isWhitespace).reverse.dropWhile
    Char.isWhitespace).reverse)

/-- Index of the token ending the lazy match `^select\s+(.+?)\s+from\s+`:
the query must start with a `select` token (the regex is `^`-anchored), and
the match ends at the first `from` token with at least one token before it
(besides the leading `select`) and, when `needTrailing` is true (part_005's
regex ends in `\s+`), at least one token after it. -/
def findSelectFromIdx (needTrailing : Bool) (tokens : List String) : Option Nat :=
  if lcTok (tokens.getD 0 "") == "select" then
    (List.range tokens.length).find? fun i =>
      decide (2 ≤ i) && (!needTrailing || decide (i + 1 < tokens.length)) &&
        (lcTok (tokens.getD i "") == "from")
  else none

/-- The `/from\s+(\w+)/i` match: first `from` token whose successor starts
with a word character; returns the captured word. -/
def findFromEntity (tokens : List String) : Option String :=
  ((List.range tokens.length).find? fun i =>
    (lcTok (tokens.getD i "") == "from") && decide (i + 1 < tokens.length) &&
      (wordPrefix (tokens.getD (i + 1) "") != "")).map
    fun i => wordPrefix (tokens.getD (i + 1) "")

/-- Whether token `j` starts a terminator of the lazy `WHERE` capture:
`\s+order\s+by`, `\s+startposition` or `\s+maxresults`. -/
def isWhereTerminator (tokens : List String) (j : Nat) : Bool :=
  (lcTok (tokens.getD j "") == "order" && (lcTok (tokens.getD (j + 1) "") == "by")
      && decide (j + 1 < tokens.length))
    || lcTok (tokens.getD j "") == "startposition"
    || lcTok (tokens.getD j "") == "maxresults"

/-- Whether token `j` starts a terminator of the lazy `ORDER BY` capture. -/
def isOrderByTerminator (tokens : List String) (j : Nat) : Bool :=
  lcTok (tokens.getD j "") == "startposition"
    || lcTok (tokens.getD j "") == "maxresults"

/-- Tokens `[start, stop)` where `stop` is the first index `> start` at which
`term` fires, or the end of the list. -/
def captureUntil (tokens : List String) (start : Nat)
    (term : List String → Nat → Bool) : List String :=
  let stop := ((List.range tokens.length).find? fun j =>
    decide (start < j) && term tokens j).getD tokens.length
  (tokens.take stop).drop start

/-- `/where\s+(.+?)(?:\s+order\s+by|\s+startposition|\s+maxresults|$)/i`:
first `where` token followed by a non-empty capture up to the first
terminator. -/
def findWhereClause (tokens : List String) : Option (List String) :=
  ((List.range tokens.length).find? fun i =>
    (lcTok (tokens.getD i "") == "where") && decide (i + 1 < tokens.length) &&
      !isWhereTerminator tokens (i + 1)).map
    fun i => captureUntil tokens (i + 1) isWhereTerminator

/-- `/order\s+by\s+(.+?)(?:\s+startposition|\s+maxresults|$)/i`. -/
def findOrderByClause (tokens : List String) : Option (List String) :=
  ((List.range tokens.length).find? fun i =>
    (lcTok (tokens.getD i "") == "order") && (lcTok (tokens.getD (i + 1) "") == "by")
      && decide (i + 2 < tokens.length) && !isOrderByTerminator tokens (i + 2)).map
    fun i => captureUntil tokens (i + 2) isOrderByTerminator

/-- `/startposition\s+(\d+)/i` (resp. `/maxresults\s+(\d+)/i`): first
occurrence of the keyword whose successor token starts with a digit;
captures the digit prefix as a number. -/
def findNumericClause (keyword : String) (tokens : List String) : Option Nat :=
  ((List.range tokens.length).find? fun i =>
    (lcTok (tokens.getD i "") == keyword) && decide (i + 1 < tokens.length) &&
      (digitPrefix (tokens.getD (i + 1) "") != "")).bind
    fun i => digitsToNat (digitPrefix (tokens.getD (i + 1) ""))

/-- Result of `parseQuery` (both variants). On `valid := false` only
`error` is populated, like the source's `{valid: false, error}`. -/
structure ParsedQuery where
  valid : Bool
  select : List String
  fromEntity : String
  whereClause : Option (List String)
  orderBy : Option (List String)
  startPosition : Option Nat
  maxResults : Option Nat
  error : Option String
deriving DecidableEq, Repr

/-- The invalid parse result `{valid: false, error}`. -/
def ParsedQuery.invalid (e : String) : ParsedQuery :=
  { valid := false, select := [], fromEntity := "", whereClause := none,
    orderBy := none, startPosition := none, maxResults := none, error := some e }

/-- `QBO_QUERYABLE_ENTITIES` (part_005, lines 19–25; identical to
`QUERYABLE_ENTITIES` in part_003, lines 21–27). -/
def QBO_QUERYABLE_ENTITIES : List String :=
  ["Account", "Bill", "BillPayment", "Budget", "Class", "CreditMemo",
   "Customer", "Department", "Deposit", "Employee", "Estimate", "Invoice",
   "Item", "JournalEntry", "Payment", "PaymentMethod", "Purchase",
   "PurchaseOrder", "RefundReceipt", "SalesReceipt", "TaxCode", "TaxRate",
   "Term", "TimeActivity", "Transfer", "Vendor", "VendorCredit"]

/-- Shallow embedding of `parseQuery(query)` from part_005 (lines 400–432).
Note: this variant performs NO allow-list check on the `FROM` entity — any
word is accepted. -/
def parseQuery (tokens : List String) : ParsedQuery :=
  match findSelectFromIdx true tokens, findFromEntity tokens with
  | some i, some fromE =>
    { valid := true,
      select := (tokens.take i).drop 1,
      fromEntity := fromE,
      whereClause := findWhereClause tokens,
      orderBy := findOrderByClause tokens,
      startPosition := findNumericClause "startposition" tokens,
      maxResults := findNumericClause "maxresults" tokens,
      error := none }
  | _, _ => ParsedQuery.invalid "Query must include SELECT and FROM clauses"

/-- Shallow embedding of `parseQuery(query)` from part_003 (lines 381–432):
same clause extraction (its SELECT regex has no trailing `\s+` after
`FROM`), plus the `QUERYABLE_ENTITIES` allow-list check on the `FROM`
target. -/
def parseQueryLegacy (tokens : List String) : ParsedQuery :=
  match findSelectFromIdx false tokens with
  | none => ParsedQuery.invalid "Missing SELECT clause"
  | some i =>
    match findFromEntity tokens with
    | none => ParsedQuery.invalid "Missing FROM clause"
    | some fromE =>
      if !QBO_QUERYABLE_ENTITIES.contains fromE then
        ParsedQuery.invalid ("Invalid entity: " ++ fromE)
      else
        { valid := true,
          select := (tokens.take i).drop 1,
          fromEntity := fromE,
          whereClause := findWhereClause tokens,
          orderBy := findOrderByClause tokens,
          startPosition := findNumericClause "startposition" tokens,
          maxResults := findNumericClause "maxresults" tokens,
          error := none }

/-! ## Paginated custom query (part_005, `runCustomQuery`, lines 239–398) -/

/-- A QBO entity as a JSON object, modelled as its field/value list (values
already rendered to the strings the converters produce). -/
abbrev Entity := List (String × String)

/-- One response of the `/query` endpoint as consumed by the loop body:
status code, `Retry-After` header, the `QueryResponse[parsedQuery.from]`
entity array, and the optional `QueryResponse.totalCount` /
`QueryResponse.startPosition` fields. -/
structure Page where
  status : Nat
  retryAfter : Nat
  entities : List Entity
  totalCount : Option Nat
  startPosition : Option Nat
deriving DecidableEq, Repr

/-- Result envelope of `runCustomQuery`. `thrown` models a raised JS
exception (invalid query, or the model artifact of the response stream
running out); `success`/`error`/`errorCode` model the returned object. -/
structure QueryOutcome where
  success : Bool
  thrown : Option String
  data : List Entity
  totalCount : Nat
  hasMore : Bool
  nextStartPosition : Option Nat
  errorCode : Option Nat
  error : Option String
  /-- number of page requests issued. -/
  requests : Nat
  /-- row count of each successfully received page, in order. -/
  pageCounts : List Nat
deriving DecidableEq, Repr

/-- `queryResponse.startPosition || currentStart` (`0` is falsy). -/
def pageStartFrom (currentStart : Nat) (p : Page) : Nat :=
  match p.startPosition with
  | some s => if s = 0 then currentStart else s
  | none => currentStart

/-- `queryResponse.totalCount != null ? queryResponse.totalCount :
(totalCount || aggregatedEntities.length)` (`!= null` admits `0`; `||`
treats `0` as absent). -/
def pageTotal (total aggLen : Nat) (p : Page) : Nat :=
  match p.totalCount with
  | some t => t
  | none => if total ≠ 0 then total else aggLen

/-- `hasMore = (moreByTotal || moreByBatch) && progressed` for one page. -/
def pageHasMore (currentStart pageSize : Nat) (p : Page) : Bool :=
  let startFrom := pageStartFrom currentStart p
  let returned := p.entities.length
  let moreByTotal : Bool := match p.totalCount with
    | some t => decide (startFrom - 1 + returned < t)
    | none => false
  (moreByTotal || decide (returned = pageSize))
    && decide (currentStart < startFrom + returned)

/-- The `while (true)` pagination loop of `runCustomQuery`.  Arguments after
the page stream: pages fetched so far, `currentStart`, `aggregatedEntities`,
`totalCount` accumulator, and the per-page counts recorded so far. -/
def runPagesLoop (fetchAll : Bool) (maxPages pageSize : Nat) :
    List Page → Nat → Nat → List Entity → Nat → List Nat → QueryOutcome
  | [], fetchedPages, _, agg, total, counts =>
    { success := false, thrown := some "model: response stream exhausted",
      data := agg, totalCount := total, hasMore := false,
      nextStartPosition := none, errorCode := none, error := none,
      requests := fetchedPages, pageCounts := counts }
  | p :: rest, fetchedPages, currentStart, agg, total, counts =>
    let fp := fetchedPages + 1
    if p.status = 200 then
      let agg' := agg ++ p.entities
      let total' := pageTotal total agg'.length p
      let returned := p.entities.length
      let next := pageStartFrom currentStart p + returned
      let hasMore := pageHasMore currentStart pageSize p
      if !fetchAll || !hasMore || decide (maxPages ≤ fp) then
        { success := true, thrown := none, data := agg', totalCount := total',
          hasMore := hasMore,
          nextStartPosition := if hasMore then some next else none,
          errorCode := none, error := none, requests := fp,
          pageCounts := counts ++ [returned] }
      else
        runPagesLoop fetchAll maxPages pageSize rest fp next agg' total'
          (counts ++ [returned])
    else if p.status = 429 then
      { success := false, thrown := none, data := [], totalCount := 0,
        hasMore := false, nextStartPosition := none, errorCode := some 429,
        error := some "Rate limit exceeded", requests := fp, pageCounts := counts }
    else
      { success := false, thrown := none, data := [], totalCount := 0,
        hasMore := false, nextStartPosition := none, errorCode := some p.status,
        error := some "QuickBooks request failed.", requests := fp,
        pageCounts := counts }

/-- Shallow embedding of
`runCustomQuery(query, startPosition, maxResults, options)` (part_005).
The query is parsed and validated before any page request; the page size is
clamped by `Math.max(1, Math.min(QBO_MAX_PAGE_SIZE, parseInt(maxResults, 10)
|| QBO_MAX_PAGE_SIZE))`, the start by `Math.max(1, parseInt(startPosition,
10) || 1)`, and `options.maxPages || 50` supplies the page ceiling (`0`
standing for an absent option).  Transport selection (GET under 2000 chars,
POST above) and the inter-page `Utilities.sleep(200)` do not affect the
data flow and are not modelled. -/
def runCustomQuery (tokens : List String) (startPosition maxResults : Nat)
    (fetchAll : Bool) (maxPagesOpt : Nat) (pages : List Page) : QueryOutcome :=
  let parsed := parseQuery tokens
  if !parsed.valid then
    { success := false, thrown := some ("Invalid query: " ++ parsed.error.getD ""),
      data := [], totalCount := 0, hasMore := false, nextStartPosition := none,
      errorCode := none, error := none, requests := 0, pageCounts := [] }
  else
    let maxPages := if maxPagesOpt = 0 then 50 else maxPagesOpt
    let pageSize := max 1 (min 1000 (if maxResults = 0 then 1000 else maxResults))
    let start := max 1 (if startPosition = 0 then 1 else startPosition)
    runPagesLoop fetchAll maxPages pageSize pages 0 start [] 0 []

/-- A well-behaved server page stream starting at offset `start` for a
result set of `T` rows: every page answers 200, reports the same
`totalCount = T`, omits `startPosition` (so the client's own offset is
used), and never returns rows past the reported total. -/
def pagesConsistent (T : Nat) : Nat → List Page → Bool
  | _, [] => true
  | start, p :: ps =>
    decide (p.status = 200) && decide (p.totalCount = some T) &&
      decide (p.startPosition = none) &&
      decide (start - 1 + p.entities.length ≤ T) &&
      pagesConsistent T (start + p.entities.length) ps

/-! ## Table shaping (part_002 `normalizeTable_`; part_005 converters) -/

/-- Snapshot of a shaped table: `{rows, cols, values}` / `{data, rows, cols}`. -/
structure SheetData where
  data : List (List String)
  rows : Nat
  cols : Nat
deriving DecidableEq, Repr

/-- Pad a row on the right with `''` up to `width`
(the `while (safe.length < width) safe.push('')` loop). -/
def padRow (width : Nat) (row : List String) : List String :=
  row ++ List.replicate (width - row.length) ""

/-- Shallow embedding of `normalizeTable_(table)` (part_002, lines 194–213):
width is `Math.max(1, longest row)`; every row is truncated (`slice(0,
width)`, a no-op since `width` is the maximum) and padded to `width`. -/
def normalizeTable_ (table : List (List String)) : SheetData :=
  if table.isEmpty then { data := [], rows := 0, cols := 0 }
  else
    let cols := table.foldl (fun acc row => max acc row.length) 0
    let width := max 1 cols
    let values := table.map fun row => padRow width (row.take width)
    { data := values, rows := values.length, cols := width }

/-- Shallow embedding of `convertEntitiesToSheetData(entities, entityType)`
(part_005, lines 511–543): headers are `Object.keys(entities[0])`; each data
row maps the headers over the entity, with missing / null values rendered as
`''` (object values are already rendered to strings in the `Entity` model). -/
def convertEntitiesToSheetData (entities : List Entity) : SheetData :=
  match entities with
  | [] => { data := [], rows := 0, cols := 0 }
  | e0 :: _ =>
    let headers := e0.map Prod.fst
    let rows := headers :: entities.map fun e =>
      headers.map fun h => ((e.find? fun kv => kv.1 == h).map Prod.snd).getD ""
    { data := rows, rows := rows.length, cols := headers.length }

mutual

/-- A row of a QBO report payload (`Report.Rows.Row` elements), as consumed
by `processReportRows` (part_005, lines 484–509): `type: 'Data'` rows carry
`ColData` cell values; `type: 'Section'` rows carry an optional `Header.ColData`,
nested `Rows.Row`, and an optional `Summary.ColData`; `type: 'Summary'` rows
carry `Summary.ColData`. Cell values are already rendered (`col.value || ''`). -/
inductive RRow where
  | data (colData : List String)
  | sec (header : List String) (subRows : RRows) (summary : Option (List String))
  | summaryRow (colData : List String)

/-- The `Rows.Row` array of a report or section, as a plain (mutual)
inductive list so all recursions stay structural. -/
inductive RRows where
  | nil
  | cons (head : RRow) (tail : RRows)
end

mutual

/-- Shallow embedding of the per-row step of `processReportRows` (the body
of the source's `forEach`). -/
def processRow : RRow → Nat → List (List String)
  | .data colData, level => [if 0 < level then "" :: colData else colData]
  | .sec header subRows summary, level =>
    (if header.isEmpty then [] else [header])
      ++ processReportRows subRows (level + 1)
      ++ (match summary with | some s => [s] | none => [])
  | .summaryRow colData, level => [colData]

/-- Shallow embedding of `processReportRows(reportRows, outputRows, level)`
(part_005): sections push their non-empty header, recurse one level deeper,
then push their summary; data rows at `level > 0` are prefixed by the single
empty cell the source's `new Array(level).fill('').join('')` produces (a
`join('')` of empty strings is always `''`).  Returns the rows appended to
`outputRows`. -/
def processReportRows : RRows → Nat → List (List String)
  | .nil, _ => []
  | .cons r rest, level => processRow r level ++ processReportRows rest level
end

/-- A report payload as consumed by `convertReportToSheetData` (part_005,
lines 454–482): the optional `Columns.Column` titles (each already rendered
via `ColTitle || ColType || 'Column'`) and the optional `Rows.Row` array. -/
structure Report where
  columns : Option (List String)
  rrows : Option RRows

/-- Shallow embedding of `convertReportToSheetData(reportData)` (part_005):
pushes the column-title header row when `Columns.Column` is present, then the
processed report rows; `cols` is the length of the FIRST row (`rows[0].length`)
— nothing pads the remaining rows to that width. -/
def convertReportToSheetData (reportData : Report) : SheetData :=
  let headerRows : List (List String) := match reportData.columns with
    | some cs => [cs]
    | none => []
  let rows := headerRows ++ (match reportData.rrows with
    | some rr => processReportRows rr 0
    | none => [])
  { data := rows, rows := rows.length, cols := (rows.headD []).length }

/-! ## Dataset registry and output writer (part_006) -/

/-- `target` as stored on a dataset before normalization (JS object with
possibly-missing fields). -/
structure RawTarget where
  sheetId : Option String
  sheetName : Option String
  anchorA1 : Option String
  allowResize : Option Bool
  namedRange : Option String
deriving DecidableEq, Repr

/-- Normalized target (`normalizeDatasetTarget` output). -/
structure Target where
  sheetId : String
  sheetName : String
  anchorA1 : String
  allowResize : Bool
  namedRange : String
deriving DecidableEq, Repr

/-- The anchor regex `/^[A-Z]+[1-9][0-9]*$/`. -/
def isAnchorA1 (s : String) : Bool :=
  let cs := s.toList
  let letters := cs.takeWhile fun c => 'A' ≤ c && c ≤ 'Z'
  let rest := cs.drop letters.length
  !letters.isEmpty &&
    match rest with
    | [] => false
    | d :: ds => ('1' ≤ d && d ≤ '9') && ds.all Char.isDigit

/-- Shallow embedding of `sanitizeAnchorCell(anchor)` (part_006, lines
712–719): falsy anchor → `'A1'`; otherwise trim + upper-case, and fall back
to `'A1'` unless the result matches the anchor regex. -/
def sanitizeAnchorCell (anchor : Option String) : String :=
  match anchor with
  | none => "A1"
  | some a =>
    if a = "" then "A1"
    else
      let cleaned := ucStr (trimStr a)
      if isAnchorA1 cleaned then cleaned else "A1"

/-- Shallow embedding of `normalizeDatasetTarget(target, datasetName)`
(part_006, lines 702–710).  JS falsiness on the string fields maps `''` to
the fallback; `allowResize !== false` makes everything but an explicit
`false` count as `true`. -/
def normalizeDatasetTarget (target : Option RawTarget) (datasetName : String) : Target :=
  let t := target.getD ⟨none, none, none, none, none⟩
  let fallbackName := if datasetName = "" then "QBO Data" else datasetName
  { sheetId := t.sheetId.getD ""
    sheetName := match t.sheetName with
      | some s => if s = "" then fallbackName else s
      | none => fallbackName
    anchorA1 := sanitizeAnchorCell t.anchorA1
    allowResize := t.allowResize ≠ some false
    namedRange := t.namedRange.getD "" }

/-- `lastWrite` snapshot (part_006 dataset model; `wroteAt` is a wall-clock
timestamp and is not modelled). -/
structure LastWrite where
  rows : Nat
  cols : Nat
  sheetId : String
  sheetName : String
  rangeA1 : String
  schemaHash : String
deriving DecidableEq, Repr

/-- A dataset record (part_006 dataset model).  `params` is flattened into
`reportType` (`''` when absent) and the tokenized `queryTokens` (`[]` when
absent); `schedule` keeps only the `enabled` flag (`none` = no schedule
object); `created`/`updated`/`version` bookkeeping is not needed by the
claims under verification. -/
structure Dataset where
  id : String
  type : String
  name : String
  hasParams : Bool
  reportType : String
  queryTokens : List String
  target : Option RawTarget
  pagStart : Nat
  pagMax : Nat
  schedule : Option Bool
  lastWrite : Option LastWrite
deriving DecidableEq, Repr

/-- A sheet of the spreadsheet document. -/
structure Sheet where
  id : Nat
  name : String
deriving DecidableEq, Repr

/-- The `while (ss.getSheetByName(name))` loop of `ensureUniqueSheetName`:
try `base`, then `base (1)`, `base (2)`, … (fuel bounds the search; with
fuel > number of existing sheets it always finds a free name). -/
def uniqueNameGo (names : List String) (base : String) : Nat → Nat → String
  | 0, k => base ++ " (" ++ toString k ++ ")"
  | fuel + 1, k =>
    let cand := if k = 0 then base else base ++ " (" ++ toString k ++ ")"
    if names.contains cand then uniqueNameGo names base fuel (k + 1) else cand

/-- Shallow embedding of `ensureUniqueSheetName(ss, desiredName)` (part_006,
lines 721–729). -/
def ensureUniqueSheetName (names : List String) (desiredName : String) : String :=
  let base := if trimStr desiredName = "" then "QBO Data" else trimStr desiredName
  uniqueNameGo names base (names.length + 1) 0

/-- `generateSchemaHash(headers)` (part_006, lines 695–700) is the MD5 hex
digest of `headers.join('|')`; the engine never inverts the digest, so it is
modelled as the digest input itself. -/
def generateSchemaHash (headers : List String) : String :=
  String.intercalate "|" headers

/-- Bijective base-26 column letters (`getA1Notation` column part), by fuel
recursion on the column number. -/
def colLettersGo (fuel : Nat) (n : Nat) : List Char :=
  match fuel, n with
  | 0, _ => []
  | _, 0 => []
  | fuel + 1, n + 1 =>
    colLettersGo fuel (n / 26) ++ [Char.ofNat ('A'.toNat + n % 26)]

/-- Column number → letters (1 → `A`, 27 → `AA`). -/
def colLetters (n : Nat) : String := String.mk (colLettersGo n n)

/-- Column number of an anchor cell reference (`getColumn()`). -/
def anchorCol (s : String) : Nat :=
  (s.toList.takeWhile fun c => 'A' ≤ c && c ≤ 'Z').foldl
    (fun acc c => acc * 26 + (c.toNat - 'A'.toNat + 1)) 0

/-- Row number of an anchor cell reference (`getRow()`). -/
def anchorRow (s : String) : Nat :=
  (digitsToNat (String.mk (s.toList.dropWhile fun c => 'A' ≤ c && c ≤ 'Z'))).getD 0

/-- `range.getA1Notation()` for the block at (`startRow`, `startCol`) of
size `rows × cols`. -/
def a1Notation (startRow startCol rows cols : Nat) : String :=
  colLetters startCol ++ toString startRow ++ ":"
    ++ colLetters (startCol + cols - 1) ++ toString (startRow + rows - 1)

/-- `targetUpdates` accumulated by `writeDataToSheet`. -/
structure TargetUpdates where
  sheetName : Option String
  sheetId : Option String
  anchorA1 : Option String
  allowResize : Option Bool
  namedRange : Option String
deriving DecidableEq, Repr

/-- `Object.keys(targetUpdates).length === 0`. -/
def TargetUpdates.isEmpty (u : TargetUpdates) : Bool :=
  u.sheetName = none && u.sheetId = none && u.anchorA1 = none &&
    u.allowResize = none && u.namedRange = none

/-- Return value of `writeDataToSheet`. -/
structure WriteResult where
  sheetId : String
  sheetName : String
  rangeA1 : String
  rows : Nat
  cols : Nat
  targetUpdates : Option TargetUpdates
deriving DecidableEq, Repr

/-- A mutation of document state performed by `writeDataToSheet`, in
execution order. -/
inductive CellMutation where
  /-- `sheet.getRange(dataset.lastWrite.rangeA1).clearContent()`. -/
  | clearPrev (rangeA1 : String)
  /-- `range.setValues(data)` for a `rows × cols` block. -/
  | setValues (rows cols : Nat)
  /-- header-row bold/background formatting. -/
  | formatHeader (cols : Nat)
  /-- `autoResizeColumn` over the written columns. -/
  | autoResize (cols : Nat)
  /-- named-range removal + re-creation. -/
  | namedRangeUpdate (name : String)
deriving DecidableEq, Repr

/-- The clearing of the previous `lastWrite` region (part_006, lines
497–506): performed only when a previous write is recorded with a non-empty
sheet id and range, and that sheet id matches the resolved sheet. -/
def clearPrevEvents (lastWrite : Option LastWrite) (sheetIdStr : String) :
    List CellMutation :=
  match lastWrite with
  | some lw =>
    if lw.sheetId ≠ "" && lw.rangeA1 ≠ "" && lw.sheetId = sheetIdStr then
      [CellMutation.clearPrev lw.rangeA1]
    else []
  | none => []

/-- Shallow embedding of `writeDataToSheet(dataset, data)` (part_006, lines
443–571), returning the ordered list of document mutations together with the
JS return value (or thrown error).  The spreadsheet is `sheets`;
`maxCellsWarning`/`maxCellsHard` are the parsed config values (the warning
only logs and is not an observable mutation).  Order follows the source:
resolve/insert the sheet, accumulate `targetUpdates`, clear the previous
`lastWrite` region when it is on the resolved sheet, THEN check the cell
ceilings, then write. -/
def writeDataToSheet (sheets : List Sheet) (maxCellsWarning maxCellsHard : Nat)
    (dataset : Dataset) (data : List (List String)) :
    List CellMutation × Except String WriteResult :=
  let originalTarget := dataset.target.getD ⟨none, none, none, none, none⟩
  let target := normalizeDatasetTarget dataset.target dataset.name
  let sidOpt : Option Nat :=
    if target.sheetId = "" then none
    else match digitsToNat (digitPrefix target.sheetId) with
      | none => none
      | some 0 => none
      | some n => some n
  let byId : Option Sheet := match sidOpt with
    | some sid => sheets.find? fun s => s.id == sid
    | none => none
  let byName : Option Sheet := match byId with
    | some s => some s
    | none =>
      if target.sheetName ≠ "" then sheets.find? fun s => s.name == target.sheetName
      else none
  let resolved : Sheet × Bool := match byName with
    | some s => (s, false)
    | none =>
      let nm := ensureUniqueSheetName (sheets.map Sheet.name)
        (if target.sheetName ≠ "" then target.sheetName
         else if dataset.name ≠ "" then dataset.name else "QBO Data")
      ({ id := (sheets.map Sheet.id).foldl max 0 + 1, name := nm }, true)
  let sheet := resolved.1
  let updSheet : Option String × Option String :=
    if resolved.2 then (some sheet.name, some (toString sheet.id))
    else
      ((if target.sheetName = "" ∨ target.sheetName ≠ sheet.name then some sheet.name else none),
       (if target.sheetId = "" ∨ target.sheetId ≠ toString sheet.id then some (toString sheet.id) else none))
  let originalAnchor := match originalTarget.anchorA1 with
    | some a => ucStr (trimStr a)
    | none => ""
  let anchorA1 := sanitizeAnchorCell (some target.anchorA1)
  let updates : TargetUpdates :=
    { sheetName := updSheet.1
      sheetId := updSheet.2
      anchorA1 := if originalAnchor ≠ anchorA1 then some anchorA1 else none
      allowResize := match originalTarget.allowResize with
        | none => some target.allowResize
        | some b => if b ≠ target.allowResize then some target.allowResize else none
      namedRange :=
        if originalTarget.namedRange.getD "" ≠ target.namedRange then some target.namedRange
        else none }
  let startRow := anchorRow anchorA1
  let startCol := anchorCol anchorA1
  let clearEvents := clearPrevEvents dataset.lastWrite (toString sheet.id)
  let totalCells := data.length * (data.headD []).length
  if maxCellsHard < totalCells then
    (clearEvents, .error ("Data exceeds hard limit of " ++ toString maxCellsHard
      ++ " cells (" ++ toString totalCells ++ " cells)"))
  else
    let tu := if updates.isEmpty then none else some updates
    if !data.isEmpty && !(data.headD []).isEmpty then
      let numRows := data.length
      let numCols := (data.headD []).length
      let events := clearEvents ++ [.setValues numRows numCols]
        ++ (if startRow = 1 ∨ anchorA1 = "A1" then [.formatHeader numCols] else [])
        ++ (if target.allowResize then [.autoResize numCols] else [])
        ++ (if target.namedRange ≠ "" then [.namedRangeUpdate target.namedRange] else [])
      let res : WriteResult :=
        { sheetId := toString sheet.id, sheetName := sheet.name,
          rangeA1 := a1Notation startRow startCol numRows numCols,
          rows := numRows, cols := numCols, targetUpdates := tu }
      (events, .ok res)
    else
      let res : WriteResult :=
        { sheetId := toString sheet.id, sheetName := sheet.name,
          rangeA1 := anchorA1, rows := 0, cols := 0, targetUpdates := tu }
      (clearEvents, .ok res)

/-- Shallow embedding of `updateDatasetsIndex(datasetId, action)` (part_006,
lines 576–595), acting on the parsed index list: `'add'` appends only when
absent; `'remove'` filters out every occurrence. -/
def updateDatasetsIndex (datasetIds : List String) (datasetId : String)
    (action : String) : List String :=
  if action = "add" then
    if datasetIds.contains datasetId then datasetIds else datasetIds ++ [datasetId]
  else if action = "remove" then
    datasetIds.filter fun id => id ≠ datasetId
  else datasetIds

/-- Shallow embedding of `getDatasets()` (part_006, lines 27–55): walk the
index and collect the dataset records that exist in the property store
(records that are missing or fail to parse are skipped). -/
def getDatasets (store : String → Option Dataset) (index : List String) : List Dataset :=
  index.filterMap store

/-- `SUPPORTED_REPORTS` keys (part_003 lines 12–18 / part_005 lines 11–17). -/
def SUPPORTED_REPORTS : List String :=
  ["profitAndLoss", "balanceSheet", "trialBalance", "transactionListByDate",
   "salesByCustomer"]

/-- `{valid, error}` of `validateDataset`. -/
structure Validation where
  valid : Bool
  error : Option String
deriving DecidableEq, Repr

/-- Shallow embedding of `validateDataset(dataset)` (part_006, lines
600–649), check order as in the source.  Query datasets are parsed with
`parseQuery` — a pure computation, performed before any network request. -/
def validateDataset : Option Dataset → Validation
  | none => { valid := false, error := some "Dataset is required" }
  | some d =>
    if ¬(d.type = "standard" ∨ d.type = "query") then
      { valid := false, error := some "Invalid dataset type. Must be \"standard\" or \"query\"" }
    else if trimStr d.name = "" then
      { valid := false, error := some "Dataset name is required" }
    else if ¬d.hasParams then
      { valid := false, error := some "Dataset parameters are required" }
    else if d.type = "standard" ∧ d.reportType = "" then
      { valid := false, error := some "Report type is required for standard datasets" }
    else if d.type = "standard" ∧ ¬SUPPORTED_REPORTS.contains d.reportType then
      { valid := false, error := some ("Unsupported report type: " ++ d.reportType) }
    else if d.type = "query" ∧ d.queryTokens = [] then
      { valid := false, error := some "Query is required for query datasets" }
    else if d.type = "query" ∧ ¬(parseQuery d.queryTokens).valid then
      { valid := false,
        error := some ("Invalid query: " ++ (parseQuery d.queryTokens).error.getD "") }
    else if d.target = none then
      { valid := false, error := some "Target configuration is required" }
    else if trimStr ((d.target.getD ⟨none, none, none, none, none⟩).sheetName.getD "") = "" then
      { valid := false, error := some "Target sheet name is required" }
    else if ¬isAnchorA1 ((d.target.getD ⟨none, none, none, none, none⟩).anchorA1.getD "") then
      { valid := false, error := some "Invalid anchor cell. Use A1 notation." }
    else { valid := true, error := none }

/-! ## Job runner (part_006, `runDataset` and its two sub-runners) -/

/-- Job status values of the Job state machine. -/
inductive JobStatus where
  | running
  | completed
  | failed
deriving DecidableEq, Repr

/-- One snapshot of the persisted job record, as written to
`userProperties` by `runDataset` / `updateJobProgress`. -/
structure JobSnap where
  status : JobStatus
  progress : Nat
  message : String
  error : Option String
  hasResult : Bool
deriving DecidableEq, Repr

/-- `{success, lastWrite, targetUpdates}` returned by the sub-runners. -/
structure RunResult where
  lastWrite : LastWrite
  targetUpdates : Option TargetUpdates
deriving DecidableEq, Repr

/-- Snapshot written by `updateJobProgress(jobId, progress, message)`. -/
def mkProgressSnap (p : Nat × String) : JobSnap :=
  { status := .running, progress := p.1, message := p.2, error := none,
    hasResult := false }

/-- Shallow embedding of `runStandardReportDataset(dataset, jobId)`
(part_006, lines 305–365): progress checkpoints written, document mutations
performed, and the returned result or thrown error.  `fetch` is the outcome
of `runStandardReport` (`.error` covering both a thrown error and the
`success: false` envelope, whose `error` message the sub-runner rethrows). -/
def runStandardReportDataset (fetch : Except String Report) (sheets : List Sheet)
    (mcw mch : Nat) (dataset : Dataset) :
    List (Nat × String) × List CellMutation × Except String RunResult :=
  match fetch with
  | .error e => ([(20, "Fetching report from QuickBooks...")], [], .error e)
  | .ok rpt =>
    let sheetData := convertReportToSheetData rpt
    let w := writeDataToSheet sheets mcw mch dataset sheetData.data
    match w.2 with
    | .error e =>
      ([(20, "Fetching report from QuickBooks..."),
        (50, "Processing report data..."),
        (70, "Writing to spreadsheet...")], w.1, .error e)
    | .ok wr =>
      let lw : LastWrite :=
        { rows := sheetData.rows, cols := sheetData.cols, sheetId := wr.sheetId,
          sheetName := wr.sheetName, rangeA1 := wr.rangeA1,
          schemaHash := generateSchemaHash (sheetData.data.headD []) }
      ([(20, "Fetching report from QuickBooks..."),
        (50, "Processing report data..."),
        (70, "Writing to spreadsheet..."),
        (90, "Finalizing...")], w.1,
       .ok { lastWrite := lw, targetUpdates := wr.targetUpdates })

/-- Shallow embedding of `runQueryDataset(dataset, jobId)` (part_006, lines
370–438): runs `runCustomQuery(query, pagination.startPosition,
pagination.maxResults)` — note: WITHOUT `fetchAll`, so a single page — then
converts and writes. -/
def runQueryDataset (pages : List Page) (sheets : List Sheet) (mcw mch : Nat)
    (dataset : Dataset) :
    List (Nat × String) × List CellMutation × Except String RunResult :=
  let q := runCustomQuery dataset.queryTokens dataset.pagStart dataset.pagMax
    false 0 pages
  match q.thrown with
  | some e => ([(20, "Executing query...")], [], .error e)
  | none =>
    if !q.success then
      let msg := match q.error with
        | some e => if e = "" then "Failed to execute query" else e
        | none => "Failed to execute query"
      ([(20, "Executing query...")], [], .error msg)
    else
      let sheetData := convertEntitiesToSheetData q.data
      let w := writeDataToSheet sheets mcw mch dataset sheetData.data
      match w.2 with
      | .error e =>
        ([(20, "Executing query..."),
          (50, "Processing query results..."),
          (70, "Writing to spreadsheet...")], w.1, .error e)
      | .ok wr =>
        let lw : LastWrite :=
          { rows := sheetData.rows, cols := sheetData.cols, sheetId := wr.sheetId,
            sheetName := wr.sheetName, rangeA1 := wr.rangeA1,
            schemaHash := generateSchemaHash (sheetData.data.headD []) }
        ([(20, "Executing query..."),
          (50, "Processing query results..."),
          (70, "Writing to spreadsheet..."),
          (90, "Finalizing...")], w.1,
         .ok { lastWrite := lw, targetUpdates := wr.targetUpdates })

/-- Environment of one dataset run: the pre-recorded remote responses, the
spreadsheet, and the parsed cell-ceiling config values. -/
structure RunEnv where
  report : Except String Report
  pages : List Page
  sheets : List Sheet
  maxCellsWarning : Nat
  maxCellsHard : Nat

/-- Everything observable about one `runDataset` invocation: the sequence of
job-record snapshots written to the store (in order), the JS return/throw,
the `lastWrite` recorded into the dataset registry via `updateDataset` (the
dataset exists and stays valid, so that call cannot itself fail), and the
document mutations performed. -/
structure RunTrace where
  snaps : List JobSnap
  result : Except String Unit
  registryLastWrite : Option LastWrite
  events : List CellMutation

/-- The job-record bookkeeping shared by both branches of `runDataset`: the
initial `running`/progress-0 snapshot, the progress snapshots, and the one
terminal snapshot (`completed` with the result recorded and the registry
update queued, or `failed` with the error string). -/
def mkRunTrace
    (sub : List (Nat × String) × List CellMutation × Except String RunResult) :
    RunTrace :=
  let s0 : JobSnap :=
    { status := .running, progress := 0, message := "Initializing...",
      error := none, hasResult := false }
  let s10 := mkProgressSnap (10, "Connecting to QuickBooks...")
  match sub.2.2 with
  | .ok r =>
    let fin : JobSnap :=
      { status := .completed, progress := 100,
        message := "Dataset run completed successfully", error := none,
        hasResult := true }
    { snaps := s0 :: s10 :: sub.1.map mkProgressSnap ++ [fin], result := .ok (),
      registryLastWrite := some r.lastWrite, events := sub.2.1 }
  | .error e =>
    let fin : JobSnap :=
      { status := .failed, progress := 0,
        message := "Dataset run failed: " ++ e, error := some e,
        hasResult := false }
    { snaps := s0 :: s10 :: sub.1.map mkProgressSnap ++ [fin],
      result := .error e, registryLastWrite := none, events := sub.2.1 }

/-- Shallow embedding of `runDataset(datasetId)` (part_006, lines 222–300).
A missing dataset throws before any job record is created.  Otherwise the
job is stored as `running` with progress 0, progressed at the fixed
checkpoints, and finally stored exactly once as `completed` (progress 100,
result attached, registry updated) or — when the sub-runner throws — as
`failed` with the error string.  The failed snapshot keeps progress 0: the
source mutates the local `job` object, whose `progress` field was never
advanced locally (only the stored copy was, via `updateJobProgress`). -/
def runDataset (ds : Option Dataset) (env : RunEnv) : RunTrace :=
  match ds with
  | none =>
    { snaps := [], result := .error "Dataset not found",
      registryLastWrite := none, events := [] }
  | some d =>
    mkRunTrace
      (if d.type = "standard" then
        runStandardReportDataset env.report env.sheets env.maxCellsWarning
          env.maxCellsHard d
      else if d.type = "query" then
        runQueryDataset env.pages env.sheets env.maxCellsWarning env.maxCellsHard d
      else ([], [], .error ("Unknown dataset type: " ++ d.type)))

/-! ## Scheduler (src/Scheduler.gs) -/

/-- Association-list lookup over string keys (`PropertiesService` reads). -/
def alistFind {α : Type} (m : List (String × α)) (k : String) : Option α :=
  (m.find? fun kv => kv.1 == k).map Prod.snd

/-- Scheduler-visible persistent state: the reverse `'trigger_' + triggerId
→ datasetId` map, the forward `TRIGGER_PREFIX + datasetId → triggerId` map,
the dataset records, and the live project trigger ids. -/
structure SchedState where
  revMap : List (String × String)
  fwdMap : List (String × String)
  datasets : List (String × Dataset)
  triggers : List String
deriving DecidableEq, Repr

/-- Shallow embedding of `removeScheduleTrigger(datasetId)` (Scheduler.gs,
lines 101–140): look up the stored trigger id for the dataset — when there
is none, nothing is deleted; otherwise delete every live trigger with that
id and both property-store mappings. -/
def removeScheduleTrigger (st : SchedState) (datasetId : String) :
    SchedState × Bool :=
  match alistFind st.fwdMap datasetId with
  | none => (st, false)
  | some triggerId =>
    let found := st.triggers.contains triggerId
    ({ st with
        triggers := st.triggers.filter fun t => t ≠ triggerId,
        fwdMap := st.fwdMap.filter fun kv => kv.1 ≠ datasetId,
        revMap := st.revMap.filter fun kv => kv.1 ≠ triggerId }, found)

/-- Everything observable about one `scheduledDatasetRun` trigger fire. -/
structure SchedOutcome where
  state : SchedState
  /-- whether `runDataset` was invoked. -/
  ran : Bool
  lockAcquired : Bool
  lockReleased : Bool
  /-- whether the `scheduled_run_skipped` log entry was emitted. -/
  skipLogged : Bool
  /-- the dataset run's trace, when one happened. -/
  trace : Option RunTrace

/-- Shallow embedding of `scheduledDatasetRun(e)` (Scheduler.gs, lines
145–253).  `e` is the event's `triggerUid`; `lockAvailable` models whether
`LockService.getUserLock().tryLock(10000)` succeeds.  Order follows the
source: resolve the dataset id from the reverse mapping; a missing dataset
or a disabled/absent schedule removes the trigger and exits without
running; lock-acquisition failure logs a skip and exits; otherwise the
dataset runs and the lock is released in `finally` — also when the run
throws (the outer catch only logs). -/
def scheduledDatasetRun (st : SchedState) (e : Option String)
    (lockAvailable : Bool) (env : RunEnv) : SchedOutcome :=
  let noRun : SchedOutcome :=
    { state := st, ran := false, lockAcquired := false, lockReleased := false,
      skipLogged := false, trace := none }
  match e with
  | none => noRun
  | some triggerId =>
    match alistFind st.revMap triggerId with
    | none => noRun
    | some datasetId =>
      match alistFind st.datasets datasetId with
      | none =>
        { state := (removeScheduleTrigger st datasetId).1, ran := false,
          lockAcquired := false, lockReleased := false, skipLogged := false,
          trace := none }
      | some dataset =>
        if dataset.schedule ≠ some true then
          { state := (removeScheduleTrigger st datasetId).1, ran := false,
            lockAcquired := false, lockReleased := false, skipLogged := false,
            trace := none }
        else if !lockAvailable then
          { state := st, ran := false, lockAcquired := false,
            lockReleased := false, skipLogged := true, trace := none }
        else
          { state := st, ran := true, lockAcquired := true, lockReleased := true,
            skipLogged := false, trace := some (runDataset (some dataset) env) }

/-! ## Properties of the resilient client (C1, C2) -/

/-- After the first attempt, `qboFetch_` never refreshes the token again. -/
theorem qboFetch_refreshes_eq_zero (j : Nat → Nat) :
    ∀ (resps : List HttpResponse) (a : Nat), 2 ≤ a →
      (qboFetch_ j resps a).refreshes = 0 := by
  intro resps
  induction resps with
  | nil => intro a _; rfl
  | cons r rest ih =>
    intro a ha
    simp only [qboFetch_]
    split_ifs with h1 h2 h3 hr h4
    · rfl
    · exact absurd h2.2 (by omega)
    · exact ih (a + 1) (by omega)
    · exact ih (a + 1) (by omega)
    · rfl
    · rfl

/-- A whole `qboFetch_` run starting at attempt 1 refreshes at most once. -/
theorem qboFetch_refreshes_le_one (j : Nat → Nat) (resps : List HttpResponse) :
    (qboFetch_ j resps 1).refreshes ≤ 1 := by
  cases resps with
  | nil => exact Nat.zero_le 1
  | cons r rest =>
    simp only [qboFetch_]
    split_ifs with h1 h2 h3 hr h4
    · exact Nat.zero_le 1
    · have hz := qboFetch_refreshes_eq_zero j rest (1 + 1) (by norm_num)
      show (qboFetch_ j rest (1 + 1)).refreshes + 1 ≤ 1
      omega
    · have hz := qboFetch_refreshes_eq_zero j rest (1 + 1) (by norm_num)
      show (qboFetch_ j rest (1 + 1)).refreshes ≤ 1
      omega
    · have hz := qboFetch_refreshes_eq_zero j rest (1 + 1) (by norm_num)
      show (qboFetch_ j rest (1 + 1)).refreshes ≤ 1
      omega
    · exact Nat.zero_le 1
    · exact Nat.zero_le 1

/-- Request-count bound for `qboFetch_` at any attempt number. -/
theorem qboFetch_requests_le (j : Nat → Nat) :
    ∀ (resps : List HttpResponse) (a : Nat),
      (qboFetch_ j resps a).requests ≤ max 1 (7 - a) := by
  intro resps
  induction resps with
  | nil => intro a; exact Nat.zero_le _
  | cons r rest ih =>
    intro a
    simp only [qboFetch_]
    split_ifs with h1 h2 h3 hr h4
    · exact le_max_left 1 _
    · have hk := ih (a + 1)
      have ha := h2.2
      show (qboFetch_ j (rest) (a + 1)).requests + 1 ≤ max 1 (7 - a)
      subst ha
      omega
    · have hk := ih (a + 1)
      have ha := h3.2
      show (qboFetch_ j (rest) (a + 1)).requests + 1 ≤ max 1 (7 - a)
      omega
    · have hk := ih (a + 1)
      have ha := h3.2
      show (qboFetch_ j (rest) (a + 1)).requests + 1 ≤ max 1 (7 - a)
      omega
    · exact le_max_left 1 _
    · exact le_max_left 1 _

/-- `backoffBase` is monotone in the attempt number. -/
theorem backoffBase_mono {a b : Nat} (h : a ≤ b) : backoffBase a ≤ backoffBase b :=
  min_le_min le_rfl (Nat.mul_le_mul_right 250 (Nat.pow_le_pow_right (by norm_num) h))

/-- The recorded pre-jitter backoff delays form a non-decreasing chain, all
bounded below by the base delay of the starting attempt. -/
theorem qboFetch_baseDelays_sorted (j : Nat → Nat) :
    ∀ (resps : List HttpResponse) (a : Nat),
      List.Chain' (· ≤ ·) (qboFetch_ j resps a).baseDelays
        ∧ ∀ x ∈ (qboFetch_ j resps a).baseDelays, backoffBase a ≤ x := by
  intro resps
  induction resps with
  | nil => intro a; exact ⟨List.chain'_nil, by intro x hx; cases hx⟩
  | cons r rest ih =>
    intro a
    simp only [qboFetch_]
    split_ifs with h1 h2 h3 hr h4
    · exact ⟨List.chain'_nil, by intro x hx; cases hx⟩
    · refine ⟨(ih (a + 1)).1, fun x hx => ?_⟩
      exact le_trans (backoffBase_mono (Nat.le_succ a)) ((ih (a + 1)).2 x hx)
    · constructor
      · refine List.chain'_cons'.mpr ⟨fun y hy => ?_, (ih (a + 1)).1⟩
        have hy' : y ∈ (qboFetch_ j rest (a + 1)).baseDelays :=
          List.mem_of_mem_head? hy
        exact le_trans (backoffBase_mono (Nat.le_succ a)) ((ih (a + 1)).2 y hy')
      · intro x hx
        rcases List.mem_cons.mp hx with hx | hx
        · exact le_of_eq hx.symm
        · exact le_trans (backoffBase_mono (Nat.le_succ a)) ((ih (a + 1)).2 x hx)
    · constructor
      · refine List.chain'_cons'.mpr ⟨fun y hy => ?_, (ih (a + 1)).1⟩
        have hy' : y ∈ (qboFetch_ j rest (a + 1)).baseDelays :=
          List.mem_of_mem_head? hy
        exact le_trans (backoffBase_mono (Nat.le_succ a)) ((ih (a + 1)).2 y hy')
      · intro x hx
        rcases List.mem_cons.mp hx with hx | hx
        · exact le_of_eq hx.symm
        · exact le_trans (backoffBase_mono (Nat.le_succ a)) ((ih (a + 1)).2 x hx)
    · exact ⟨List.chain'_nil, by intro x hx; cases hx⟩
    · exact ⟨List.chain'_nil, by intro x hx; cases hx⟩

/-- Exact outcome of `qboFetch_` when the first two responses are both 401:
one refresh, one retry, then session reset and a terminal auth error. -/
theorem qboFetch_double401 (j : Nat → Nat) (r1 r2 : HttpResponse)
    (rest : List HttpResponse) (h1 : r1.status = 401) (h2 : r2.status = 401) :
    qboFetch_ j (r1 :: r2 :: rest) 1 =
      { result := .authError, requests := 2, refreshes := 1, resetCalled := true,
        baseDelays := [], waits := [] } := by
  have hn1 : ¬(200 ≤ r1.status ∧ r1.status < 300) := by omega
  have hn2 : ¬(200 ≤ r2.status ∧ r2.status < 300) := by omega
  have hn3 : ¬(r2.status = 401 ∧ (1 : Nat) + 1 = 1) := by omega
  have hn4 : ¬((r2.status = 429 ∨ (500 ≤ r2.status ∧ r2.status ≤ 504)) ∧ (1 : Nat) + 1 < 6) := by
    omega
  simp only [qboFetch_, if_neg hn1, if_pos (And.intro h1 rfl), if_neg hn2, if_neg hn3,
    if_neg hn4, if_pos h2]
  rw [if_pos (show r1.status = 401 ∧ True from ⟨h1, trivial⟩)]

/-- The backoff sleep of a retried 429/5xx response: `Retry-After` seconds
when the header is positive, else the capped exponential base plus jitter. -/
theorem qboFetch_retry_wait (j : Nat → Nat) (r : HttpResponse)
    (rest : List HttpResponse) (a : Nat)
    (hs : r.status = 429 ∨ (500 ≤ r.status ∧ r.status ≤ 504)) (ha : a < 6) :
    (qboFetch_ j (r :: rest) a).waits =
      (if 0 < r.retryAfter then r.retryAfter * 1000 else backoffBase a + j a)
        :: (qboFetch_ j rest (a + 1)).waits := by
  have hn1 : ¬(200 ≤ r.status ∧ r.status < 300) := by omega
  have hn2 : ¬(r.status = 401 ∧ a = 1) := by
    rintro ⟨hc, -⟩; omega
  simp only [qboFetch_, if_neg hn1, if_neg hn2, if_pos (And.intro hs ha)]

/-- **C1 (amended).** On a 401, `qboFetch_` refreshes the token at most once
per logical request; when the retried request is also a 401 it raises the
terminal auth error, calls `svc.reset()` (invalidating the session), and has
issued exactly 2 requests with exactly 1 refresh.  `makeAuthenticatedRequest`
(part_000) likewise refreshes at most once and retries the same request
once on a 401 — but it returns the retried response to its caller as-is,
even when that response is again a 401: it raises no terminal error and
never resets the OAuth session. -/
theorem C1_single_refresh_then_terminal :
    (∀ (j : Nat → Nat) (resps : List HttpResponse),
        (qboFetch_ j resps 1).refreshes ≤ 1)
      ∧ (∀ (j : Nat → Nat) (r1 r2 : HttpResponse) (rest : List HttpResponse),
          r1.status = 401 → r2.status = 401 →
            (qboFetch_ j (r1 :: r2 :: rest) 1).result = .authError
              ∧ (qboFetch_ j (r1 :: r2 :: rest) 1).resetCalled = true
              ∧ (qboFetch_ j (r1 :: r2 :: rest) 1).requests = 2
              ∧ (qboFetch_ j (r1 :: r2 :: rest) 1).refreshes = 1)
      ∧ (∀ (rt : Bool) (resps : List HttpResponse),
          (makeAuthenticatedRequest true true rt resps).refreshes ≤ 1)
      ∧ (∀ (r1 r2 : HttpResponse) (rest : List HttpResponse),
          r1.status = 401 →
            (makeAuthenticatedRequest true true false (r1 :: r2 :: rest)).result = .ok r2
              ∧ (makeAuthenticatedRequest true true false (r1 :: r2 :: rest)).resetCalled
                  = false
              ∧ (makeAuthenticatedRequest true true false (r1 :: r2 :: rest)).refreshes
                  = 1) := by
  refine ⟨qboFetch_refreshes_le_one, ?_, ?_, ?_⟩
  · intro j r1 r2 rest h1 h2
    rw [qboFetch_double401 j r1 r2 rest h1 h2]
    exact ⟨rfl, rfl, rfl, rfl⟩
  · intro rt resps
    cases resps with
    | nil =>
      simp only [makeAuthenticatedRequest]
      split_ifs <;> exact Nat.zero_le 1
    | cons r rest =>
      simp only [makeAuthenticatedRequest]
      split_ifs <;>
        first
          | exact Nat.zero_le 1
          | exact le_rfl
          | (cases rest <;> exact le_rfl)
  · intro r1 r2 rest h1
    simp [makeAuthenticatedRequest, h1]

/-- Witness for C1: concrete instantiations of every hypothesis-bearing
conjunct. -/
theorem C1_single_refresh_then_terminal_witness :
    (qboFetch_ (fun _ => 0) [⟨401, 0⟩, ⟨401, 0⟩] 1).result = .authError
      ∧ (makeAuthenticatedRequest true true false
          [⟨401, 0⟩, ⟨200, 0⟩]).result = .ok ⟨200, 0⟩ :=
  ⟨(C1_single_refresh_then_terminal.2.1 (fun _ => 0) ⟨401, 0⟩ ⟨401, 0⟩ [] rfl rfl).1,
   (C1_single_refresh_then_terminal.2.2.2 ⟨401, 0⟩ ⟨200, 0⟩ [] rfl).1⟩

/-- Counterexample to C1 as stated: in `makeAuthenticatedRequest` a second
consecutive 401 is NOT terminal — the 401 retry response is returned to the
caller as a success value, and the OAuth session is not invalidated. -/
theorem C1_counterexample :
    (makeAuthenticatedRequest true true false [⟨401, 0⟩, ⟨401, 0⟩]).result
        = .ok ⟨401, 0⟩
      ∧ (makeAuthenticatedRequest true true false [⟨401, 0⟩, ⟨401, 0⟩]).resetCalled
          = false
      ∧ (makeAuthenticatedRequest true true false [⟨401, 0⟩, ⟨401, 0⟩]).refreshes = 1 :=
  ⟨rfl, rfl, rfl⟩

/-- **C2 (as stated).** For 429/5xx responses `qboFetch_` sleeps
`min(30000, 250·2^attempt) + jitter` unless a positive `Retry-After` header
overrides it with `Retry-After × 1000` ms; it never issues more than 6
requests; ignoring jitter, the recorded exponential base delays are
monotonically non-decreasing across attempts; and for three consecutive
429 responses followed by a 200 exactly 4 requests are issued. -/
theorem C2_backoff_and_attempt_ceiling :
    (∀ (j : Nat → Nat) (resps : List HttpResponse),
        (qboFetch_ j resps 1).requests ≤ 6)
      ∧ (∀ (j : Nat → Nat) (resps : List HttpResponse) (a : Nat),
          List.Chain' (· ≤ ·) (qboFetch_ j resps a).baseDelays)
      ∧ (∀ (j : Nat → Nat) (r : HttpResponse) (rest : List HttpResponse) (a : Nat),
          (r.status = 429 ∨ (500 ≤ r.status ∧ r.status ≤ 504)) → a < 6 →
            (qboFetch_ j (r :: rest) a).waits =
              (if 0 < r.retryAfter then r.retryAfter * 1000
               else backoffBase a + j a) :: (qboFetch_ j rest (a + 1)).waits)
      ∧ (∀ j : Nat → Nat,
          (qboFetch_ j [⟨429, 0⟩, ⟨429, 0⟩, ⟨429, 0⟩, ⟨200, 0⟩] 1).requests = 4) := by
  refine ⟨?_, ?_, qboFetch_retry_wait, ?_⟩
  · intro j resps
    have h := qboFetch_requests_le j resps 1
    omega
  · intro j resps a
    exact (qboFetch_baseDelays_sorted j resps a).1
  · intro j
    rfl

/-- Witness for C2: concrete instantiations of every hypothesis-bearing
conjunct. -/
theorem C2_backoff_and_attempt_ceiling_witness :
    (qboFetch_ (fun _ => 7) [⟨429, 10⟩, ⟨200, 0⟩] 1).waits =
        (if 0 < (10 : Nat) then 10 * 1000 else backoffBase 1 + 7)
          :: (qboFetch_ (fun _ => 7) [⟨200, 0⟩] 2).waits
      ∧ (qboFetch_ (fun _ => 7) [⟨503, 0⟩, ⟨200, 0⟩] 1).waits =
          (if 0 < (0 : Nat) then 0 * 1000 else backoffBase 1 + 7)
            :: (qboFetch_ (fun _ => 7) [⟨200, 0⟩] 2).waits :=
  ⟨C2_backoff_and_attempt_ceiling.2.2.1 (fun _ => 7) ⟨429, 10⟩ [⟨200, 0⟩] 1
      (Or.inl rfl) (by norm_num),
   C2_backoff_and_attempt_ceiling.2.2.1 (fun _ => 7) ⟨503, 0⟩ [⟨200, 0⟩] 1
      (Or.inr (by norm_num)) (by norm_num)⟩

/-! ## Properties of the pagination loop (C3) -/

/-- Whenever the aggregate matches the recorded page counts, a successful
loop exit keeps them matched: the aggregated row count is the sum of the
per-page row counts. -/
theorem runPagesLoop_sum (fa : Bool) (mp ps : Nat) :
    ∀ (pages : List Page) (fp start : Nat) (agg : List Entity) (total : Nat)
      (counts : List Nat), agg.length = counts.sum →
      (runPagesLoop fa mp ps pages fp start agg total counts).success = true →
      (runPagesLoop fa mp ps pages fp start agg total counts).data.length =
        (runPagesLoop fa mp ps pages fp start agg total counts).pageCounts.sum := by
  intro pages
  induction pages with
  | nil =>
    intro fp start agg total counts hinv hs
    simp [runPagesLoop] at hs
  | cons p rest ih =>
    intro fp start agg total counts hinv hs
    simp only [runPagesLoop] at hs ⊢
    split_ifs at hs ⊢ with h200 hbrk hnext h429 <;>
      first
        | (show (agg ++ p.entities).length = (counts ++ [p.entities.length]).sum
           simp only [List.length_append, List.sum_append, List.sum_cons,
             List.sum_nil, hinv]
           omega)
        | (refine ih _ _ _ _ _ ?_ hs
           simp only [List.length_append, List.sum_append, List.sum_cons,
             List.sum_nil, hinv]
           omega)
        | simp at hs

/-- The loop never issues more page requests than the page ceiling. -/
theorem runPagesLoop_requests_le (fa : Bool) (mp ps : Nat) :
    ∀ (pages : List Page) (fp start : Nat) (agg : List Entity) (total : Nat)
      (counts : List Nat), fp < mp →
      (runPagesLoop fa mp ps pages fp start agg total counts).requests ≤ mp := by
  intro pages
  induction pages with
  | nil =>
    intro fp start agg total counts hfp
    simpa [runPagesLoop] using Nat.le_of_lt hfp
  | cons p rest ih =>
    intro fp start agg total counts hfp
    simp only [runPagesLoop]
    split_ifs with h200 hbrk hnext h429 <;>
      first
        | exact hfp
        | (have hnotceil : ¬ mp ≤ fp + 1 := by
             intro hle
             exact hbrk (by simp [hle])
           exact ih _ _ _ _ _ (by omega))

/-- Against a well-behaved server stream, the aggregate never exceeds the
server-reported total. -/
theorem runPagesLoop_bounded (fa : Bool) (mp ps T : Nat) :
    ∀ (pages : List Page) (fp start : Nat) (agg : List Entity) (total : Nat)
      (counts : List Nat),
      pagesConsistent T start pages = true → start = agg.length + 1 →
      agg.length ≤ T →
      (runPagesLoop fa mp ps pages fp start agg total counts).data.length ≤ T := by
  intro pages
  induction pages with
  | nil =>
    intro fp start agg total counts _ _ hle
    simpa [runPagesLoop] using hle
  | cons p rest ih =>
    intro fp start agg total counts hcons hstart hle
    simp only [pagesConsistent, Bool.and_eq_true, decide_eq_true_eq] at hcons
    obtain ⟨⟨⟨⟨h200, htot⟩, hsp⟩, hcnt⟩, htail⟩ := hcons
    simp only [runPagesLoop]
    rw [if_pos h200]
    simp only [pageStartFrom, pageTotal, hsp, htot]
    split_ifs with hbrk hnext
    · show (agg ++ p.entities).length ≤ T
      simp only [List.length_append]
      omega
    · show (agg ++ p.entities).length ≤ T
      simp only [List.length_append]
      omega
    · have h1 : start + p.entities.length = (agg ++ p.entities).length + 1 := by
        simp only [List.length_append]
        omega
      have h2 : (agg ++ p.entities).length ≤ T := by
        simp only [List.length_append]
        omega
      exact ih (fp + 1) (start + p.entities.length) (agg ++ p.entities) T
        (counts ++ [p.entities.length]) htail h1 h2

/-- With `fetchAll` false, the loop always stops after the first page; on a
200 it returns that page appended to the aggregate, with the continuation
offset populated exactly when `hasMore` holds. -/
theorem runPagesLoop_single_false (mp ps : Nat) (p : Page) (rest : List Page)
    (fp start : Nat) (agg : List Entity) (total : Nat) (counts : List Nat)
    (h200 : p.status = 200) :
    (runPagesLoop false mp ps (p :: rest) fp start agg total counts).requests = fp + 1
      ∧ (runPagesLoop false mp ps (p :: rest) fp start agg total counts).data
          = agg ++ p.entities
      ∧ (runPagesLoop false mp ps (p :: rest) fp start agg total
            counts).nextStartPosition.isSome
          = (runPagesLoop false mp ps (p :: rest) fp start agg total counts).hasMore := by
  simp only [runPagesLoop, if_pos h200]
  split_ifs with hbrk hnext
  · refine ⟨rfl, rfl, ?_⟩
    simp only [Option.isSome_some]
    exact hnext.symm
  · refine ⟨rfl, rfl, ?_⟩
    simp only [Option.isSome_none]
    simp only [Bool.not_eq_true] at hnext
    exact hnext.symm
  · exact absurd (by simp) hbrk

/-- Counterexample to C3 as stated: page size 5, server total 10.  After two
full pages the server-reported total is exactly reached (5 + 5 = 10), yet
the loop does not stop there — a full page keeps `moreByBatch` true, so a
third page request is issued (which then returns 0 rows). -/
theorem C3_counterexample :
    (runCustomQuery ["SELECT", "*", "FROM", "Customer"] 1 5 true 0
        [⟨200, 0, List.replicate 5 [("Id", "1")], some 10, some 1⟩,
         ⟨200, 0, List.replicate 5 [("Id", "1")], some 10, some 6⟩,
         ⟨200, 0, [], some 10, some 11⟩]).requests = 3
      ∧ (runCustomQuery ["SELECT", "*", "FROM", "Customer"] 1 5 true 0
          [⟨200, 0, List.replicate 5 [("Id", "1")], some 10, some 1⟩,
           ⟨200, 0, List.replicate 5 [("Id", "1")], some 10, some 6⟩,
           ⟨200, 0, [], some 10, some 11⟩]).totalCount = 10
      ∧ (runCustomQuery ["SELECT", "*", "FROM", "Customer"] 1 5 true 0
          [⟨200, 0, List.replicate 5 [("Id", "1")], some 10, some 1⟩,
           ⟨200, 0, List.replicate 5 [("Id", "1")], some 10, some 6⟩,
           ⟨200, 0, [], some 10, some 11⟩]).pageCounts = [5, 5, 0] := by
  refine ⟨by decide, by decide, by decide⟩

/-- **C3 (amended).** With `fetchAll`, `runCustomQuery` aggregates pages and
(i) on success the aggregated row count equals the sum of the per-page row
counts; (ii) against a server that echoes the requested offsets, reports a
constant total and never returns rows past it, the aggregate never exceeds
that total; (iii) the number of page requests never exceeds the page
ceiling (`options.maxPages || 50`); (iv) with `fetchAll` false it returns
the single requested page, with the `nextStartPosition` continuation
populated exactly when `hasMore` is set.  The stop condition is `hasMore =
(moreByTotal ∨ full-page) ∧ progressed` (plus the page ceiling): a run
whose last page is full does NOT stop merely because the server-reported
total was reached — see the counterexample. -/
theorem C3_pagination_contract :
    (∀ (tokens : List String) (sp mr : Nat) (fa : Bool) (mpOpt : Nat)
        (pages : List Page),
        (runCustomQuery tokens sp mr fa mpOpt pages).success = true →
          (runCustomQuery tokens sp mr fa mpOpt pages).data.length =
            (runCustomQuery tokens sp mr fa mpOpt pages).pageCounts.sum)
      ∧ (∀ (tokens : List String) (mr : Nat) (fa : Bool) (mpOpt T : Nat)
          (pages : List Page), pagesConsistent T 1 pages = true →
            (runCustomQuery tokens 1 mr fa mpOpt pages).data.length ≤ T)
      ∧ (∀ (tokens : List String) (sp mr : Nat) (fa : Bool) (mpOpt : Nat)
          (pages : List Page),
          (runCustomQuery tokens sp mr fa mpOpt pages).requests ≤
            (if mpOpt = 0 then 50 else mpOpt))
      ∧ (∀ (tokens : List String) (sp mr mpOpt : Nat) (p : Page)
          (rest : List Page),
          (parseQuery tokens).valid = true → p.status = 200 →
            (runCustomQuery tokens sp mr false mpOpt (p :: rest)).requests = 1
              ∧ (runCustomQuery tokens sp mr false mpOpt (p :: rest)).data = p.entities
              ∧ (runCustomQuery tokens sp mr false mpOpt
                    (p :: rest)).nextStartPosition.isSome
                  = (runCustomQuery tokens sp mr false mpOpt (p :: rest)).hasMore) := by
  refine ⟨?_, ?_, ?_, ?_⟩
  · intro tokens sp mr fa mpOpt pages hs
    by_cases hv : (parseQuery tokens).valid = true
    · have hnv : ¬((!(parseQuery tokens).valid) = true) := by simp [hv]
      simp only [runCustomQuery, if_neg hnv] at hs ⊢
      exact runPagesLoop_sum _ _ _ pages 0 _ [] 0 [] rfl hs
    · have hb : (!(parseQuery tokens).valid) = true := by
        simp [Bool.eq_false_iff.mpr hv]
      simp only [runCustomQuery, if_pos hb] at hs
      simp at hs
  · intro tokens mr fa mpOpt T pages hcons
    by_cases hv : (parseQuery tokens).valid = true
    · have hnv : ¬((!(parseQuery tokens).valid) = true) := by simp [hv]
      simp only [runCustomQuery, if_neg hnv]
      norm_num
      exact runPagesLoop_bounded _ _ _ _ pages 0 1 [] 0 [] hcons rfl (Nat.zero_le T)
    · have hb : (!(parseQuery tokens).valid) = true := by
        simp [Bool.eq_false_iff.mpr hv]
      simp only [runCustomQuery, if_pos hb]
      exact Nat.zero_le T
  · intro tokens sp mr fa mpOpt pages
    by_cases hv : (parseQuery tokens).valid = true
    · have hnv : ¬((!(parseQuery tokens).valid) = true) := by simp [hv]
      simp only [runCustomQuery, if_neg hnv]
      refine runPagesLoop_requests_le _ _ _ pages 0 _ [] 0 [] ?_
      by_cases hmp : mpOpt = 0 <;> simp [hmp] <;> omega
    · have hb : (!(parseQuery tokens).valid) = true := by
        simp [Bool.eq_false_iff.mpr hv]
      simp only [runCustomQuery, if_pos hb]
      exact Nat.zero_le _
  · intro tokens sp mr mpOpt p rest hv h200
    have hnv : ¬((!(parseQuery tokens).valid) = true) := by simp [hv]
    simp only [runCustomQuery, if_neg hnv]
    have h := runPagesLoop_single_false (if mpOpt = 0 then 50 else mpOpt)
      (max 1 (min 1000 (if mr = 0 then 1000 else mr))) p rest 0
      (max 1 (if sp = 0 then 1 else sp)) [] 0 [] h200
    exact ⟨h.1, by rw [h.2.1]; simp, h.2.2⟩

/-- Witness for C3: the sum property on the counterexample stream, the
total bound on a consistent two-page stream, and single-page mode. -/
theorem C3_pagination_contract_witness :
    (runCustomQuery ["SELECT", "*", "FROM", "Customer"] 1 5 true 0
        [⟨200, 0, List.replicate 5 [("Id", "1")], some 10, some 1⟩,
         ⟨200, 0, List.replicate 5 [("Id", "1")], some 10, some 6⟩,
         ⟨200, 0, [], some 10, some 11⟩]).data.length =
      (runCustomQuery ["SELECT", "*", "FROM", "Customer"] 1 5 true 0
        [⟨200, 0, List.replicate 5 [("Id", "1")], some 10, some 1⟩,
         ⟨200, 0, List.replicate 5 [("Id", "1")], some 10, some 6⟩,
         ⟨200, 0, [], some 10, some 11⟩]).pageCounts.sum
    ∧ (runCustomQuery ["SELECT", "*", "FROM", "Customer"] 1 3 true 0
        [⟨200, 0, List.replicate 3 [("Id", "1")], some 4, none⟩,
         ⟨200, 0, List.replicate 1 [("Id", "1")], some 4, none⟩]).data.length ≤ 4
    ∧ (runCustomQuery ["SELECT", "*", "FROM", "Customer"] 1 5 false 0
        [⟨200, 0, List.replicate 5 [("Id", "1")], some 10, some 1⟩]).requests = 1 :=
  ⟨C3_pagination_contract.1 _ 1 5 true 0 _ (by decide),
   C3_pagination_contract.2.1 _ 3 true 0 4 _ (by decide),
   (C3_pagination_contract.2.2.2 _ 1 5 0 _ [] (by decide) rfl).1⟩

/-! ## Entity allow-list (C8) -/

/-- Counterexample to C8 as stated: the `parseQuery` variant of part_005 —
the one `runCustomQuery` and `validateDataset` of that build call — accepts
`SELECT * FROM Foo` although `Foo` is not in the queryable-entity
allow-list: it performs no allow-list check at all. -/
theorem C8_counterexample :
    (parseQuery ["SELECT", "*", "FROM", "Foo"]).valid = true
      ∧ (parseQuery ["SELECT", "*", "FROM", "Foo"]).fromEntity = "Foo"
      ∧ QBO_QUERYABLE_ENTITIES.contains "Foo" = false := by
  refine ⟨by decide, by decide, by decide⟩

set_option maxHeartbeats 1000000 in
/-- **C8 (amended).** Only the legacy part_003 `parseQuery` enforces the
entity allow-list: whenever it returns `valid`, the `FROM` target is a
member of `QUERYABLE_ENTITIES`.  The part_005 variant accepts any word as
`FROM` target.  In both builds the rejection of an invalid query happens
before any network request: `runCustomQuery` issues zero page requests and
throws when the parse fails, and `validateDataset` rejects a query dataset
whose query does not parse — a pure computation with no network access. -/
theorem C8_allowlist_validation :
    (∀ tokens : List String, (parseQueryLegacy tokens).valid = true →
        QBO_QUERYABLE_ENTITIES.contains (parseQueryLegacy tokens).fromEntity = true)
      ∧ (∀ (tokens : List String) (sp mr : Nat) (fa : Bool) (mpOpt : Nat)
          (pages : List Page), (parseQuery tokens).valid = false →
            (runCustomQuery tokens sp mr fa mpOpt pages).requests = 0
              ∧ (runCustomQuery tokens sp mr fa mpOpt pages).thrown ≠ none)
      ∧ (∀ d : Dataset, d.type = "query" → (parseQuery d.queryTokens).valid = false →
          (validateDataset (some d)).valid = false) := by
  refine ⟨?_, ?_, ?_⟩
  · intro tokens hv
    cases hsel : findSelectFromIdx false tokens with
    | none => simp [parseQueryLegacy, hsel, ParsedQuery.invalid] at hv
    | some i =>
      cases hfrom : findFromEntity tokens with
      | none => simp [parseQueryLegacy, hsel, hfrom, ParsedQuery.invalid] at hv
      | some fromE =>
        simp only [parseQueryLegacy, hsel, hfrom] at hv ⊢
        by_cases hc : QBO_QUERYABLE_ENTITIES.contains fromE = true
        · have hne : ¬((!QBO_QUERYABLE_ENTITIES.contains fromE) = true) := by
            rw [hc]
            decide
          rw [if_neg hne]
          exact hc
        · have hcf : QBO_QUERYABLE_ENTITIES.contains fromE = false := by
            revert hc
            cases QBO_QUERYABLE_ENTITIES.contains fromE <;> simp
          have hne : (!QBO_QUERYABLE_ENTITIES.contains fromE) = true := by
            rw [hcf]
            decide
          rw [if_pos hne] at hv
          simp [ParsedQuery.invalid] at hv
  · intro tokens sp mr fa mpOpt pages hv
    constructor
    · simp [runCustomQuery, hv]
    · simp [runCustomQuery, hv]
  · intro d hq hpv
    simp only [validateDataset]
    split_ifs with h1 h2 h3 h4 h5 h6 h7 h8 h9 h10 <;>
      first
        | rfl
        | exact absurd ⟨hq, by simp [hpv]⟩ h7

/-- Witness for C8: the legacy parser's accepted entity is allow-listed, a
parse failure reaches the network zero times, and `validateDataset` rejects
an unparsable query dataset. -/
theorem C8_allowlist_validation_witness :
    QBO_QUERYABLE_ENTITIES.contains
        (parseQueryLegacy ["SELECT", "*", "FROM", "Customer"]).fromEntity = true
      ∧ (runCustomQuery ["SELECT"] 1 5 true 0 []).requests = 0
      ∧ (validateDataset (some
          { id := "d1", type := "query", name := "ds", hasParams := true,
            reportType := "", queryTokens := ["SELECT"],
            target := some ⟨none, some "Data", some "A1", none, none⟩,
            pagStart := 1, pagMax := 1000, schedule := none,
            lastWrite := none })).valid = false :=
  ⟨C8_allowlist_validation.1 ["SELECT", "*", "FROM", "Customer"] (by decide),
   (C8_allowlist_validation.2.1 ["SELECT"] 1 5 true 0 [] (by decide)).1,
   C8_allowlist_validation.2.2
     { id := "d1", type := "query", name := "ds", hasParams := true,
       reportType := "", queryTokens := ["SELECT"],
       target := some ⟨none, some "Data", some "A1", none, none⟩,
       pagStart := 1, pagMax := 1000, schedule := none, lastWrite := none }
     rfl (by decide)⟩

/-! ## Output-writer cell ceiling (C4) -/

/-- Counterexample to C4 as stated: the dataset's previous `lastWrite`
region on the resolved sheet is cleared BEFORE the hard cell-ceiling check,
so a run aborted by the sizing error has already mutated the sheet. -/
theorem C4_counterexample :
    (writeDataToSheet [⟨1, "Data"⟩] 2 3
        { id := "d1", type := "standard", name := "ds", hasParams := true,
          reportType := "profitAndLoss", queryTokens := [],
          target := some ⟨some "1", some "Data", some "A1", some true, some ""⟩,
          pagStart := 1, pagMax := 1000, schedule := none,
          lastWrite := some ⟨3, 3, "1", "Data", "A1:C3", "h"⟩ }
        [["a", "b"], ["c", "d"]]).1 = [CellMutation.clearPrev "A1:C3"]
      ∧ (writeDataToSheet [⟨1, "Data"⟩] 2 3
          { id := "d1", type := "standard", name := "ds", hasParams := true,
            reportType := "profitAndLoss", queryTokens := [],
            target := some ⟨some "1", some "Data", some "A1", some true, some ""⟩,
            pagStart := 1, pagMax := 1000, schedule := none,
            lastWrite := some ⟨3, 3, "1", "Data", "A1:C3", "h"⟩ }
          [["a", "b"], ["c", "d"]]).2.isOk = false := by
  refine ⟨by decide, by decide⟩

/-- The only mutations the previous-region clearing step can emit are
`clearPrev` events. -/
theorem clearPrevEvents_only (lastWrite : Option LastWrite) (sid : String) :
    ∀ ev ∈ clearPrevEvents lastWrite sid, ∃ a, ev = CellMutation.clearPrev a := by
  intro ev hev
  cases lastWrite with
  | none => simp [clearPrevEvents] at hev
  | some lw =>
    simp only [clearPrevEvents] at hev
    split_ifs at hev
    · exact ⟨lw.rangeA1, List.mem_singleton.mp hev⟩
    · simp at hev

/-- **C4 (amended).** Whenever `rows × cols` exceeds `maxCellsHard`,
`writeDataToSheet` aborts with a sizing error before writing any new data —
no `setValues` (and no header-format, auto-resize or named-range update)
occurs — but the clearing of the previous `lastWrite` region is performed
BEFORE the ceiling check, so that clear may already have happened; the only
events an aborted run can have emitted are `clearPrev` events. -/
theorem C4_hard_ceiling_aborts_before_write (sheets : List Sheet)
    (mcw mch : Nat) (d : Dataset) (data : List (List String))
    (h : mch < data.length * (data.headD []).length) :
    (writeDataToSheet sheets mcw mch d data).2.isOk = false
      ∧ (∀ ev ∈ (writeDataToSheet sheets mcw mch d data).1,
          ∃ a, ev = CellMutation.clearPrev a) := by
  simp only [writeDataToSheet]
  rw [if_pos h]
  exact ⟨rfl, fun ev hev => clearPrevEvents_only _ _ ev hev⟩

/-- Witness for C4: the amended property at the counterexample input. -/
theorem C4_hard_ceiling_aborts_before_write_witness :
    (writeDataToSheet [⟨1, "Data"⟩] 2 3
        { id := "d1", type := "standard", name := "ds", hasParams := true,
          reportType := "profitAndLoss", queryTokens := [],
          target := some ⟨some "1", some "Data", some "A1", some true, some ""⟩,
          pagStart := 1, pagMax := 1000, schedule := none,
          lastWrite := some ⟨3, 3, "1", "Data", "A1:C3", "h"⟩ }
        [["a", "b"], ["c", "d"]]).2.isOk = false :=
  (C4_hard_ceiling_aborts_before_write [⟨1, "Data"⟩] 2 3
    { id := "d1", type := "standard", name := "ds", hasParams := true,
      reportType := "profitAndLoss", queryTokens := [],
      target := some ⟨some "1", some "Data", some "A1", some true, some ""⟩,
      pagStart := 1, pagMax := 1000, schedule := none,
      lastWrite := some ⟨3, 3, "1", "Data", "A1:C3", "h"⟩ }
    [["a", "b"], ["c", "d"]] (by decide)).1

/-! ## Rectangular tables (C9) -/

/-- Counterexample to C9 as stated: `convertReportToSheetData` (part_005)
does not pad rows — a section header narrower than the column-title row
yields a ragged table (handed directly to `writeDataToSheet` by
`runStandardReportDataset`). -/
theorem C9_counterexample :
    (convertReportToSheetData
        ⟨some ["A", "B", "C"],
         some (RRows.cons (RRow.sec ["Income"] RRows.nil none) RRows.nil)⟩).data
        = [["A", "B", "C"], ["Income"]]
      ∧ (convertReportToSheetData
          ⟨some ["A", "B", "C"],
           some (RRows.cons (RRow.sec ["Income"] RRows.nil none) RRows.nil)⟩).cols = 3
      ∧ ¬(∀ r ∈ (convertReportToSheetData
            ⟨some ["A", "B", "C"],
             some (RRows.cons (RRow.sec ["Income"] RRows.nil none) RRows.nil)⟩).data,
          r.length = (convertReportToSheetData
            ⟨some ["A", "B", "C"],
             some (RRows.cons (RRow.sec ["Income"] RRows.nil none) RRows.nil)⟩).cols) := by
  refine ⟨by decide, by decide, by decide⟩

/-- **C9 (amended).** `normalizeTable_` always yields a rectangular table:
every row of its output has exactly `cols = max(1, longest row)` cells, and
`rows` counts the output rows.  `convertEntitiesToSheetData` likewise emits
a header row and data rows all of width `cols`.  `convertReportToSheetData`
does NOT guarantee this — see the counterexample. -/
theorem C9_transform_rectangular :
    (∀ table : List (List String),
        (∀ r ∈ (normalizeTable_ table).data,
            r.length = (normalizeTable_ table).cols)
          ∧ (normalizeTable_ table).rows = (normalizeTable_ table).data.length)
      ∧ (∀ entities : List Entity,
          ∀ r ∈ (convertEntitiesToSheetData entities).data,
            r.length = (convertEntitiesToSheetData entities).cols) := by
  constructor
  · intro table
    by_cases ht : table.isEmpty
    · simp [normalizeTable_, ht]
    · have ht' : table.isEmpty = false := by
        revert ht
        cases table.isEmpty <;> simp
      simp only [normalizeTable_, ht', Bool.false_eq_true, if_false]
      refine ⟨?_, by trivial⟩
      intro r hr
      rcases List.mem_map.mp hr with ⟨orig, _, rfl⟩
      simp only [padRow, List.length_append, List.length_take,
        List.length_replicate]
      omega
  · intro entities r hr
    cases entities with
    | nil => simp [convertEntitiesToSheetData] at hr
    | cons e0 es =>
      simp only [convertEntitiesToSheetData] at hr ⊢
      rcases List.mem_cons.mp hr with rfl | hr
      · simp
      · rcases List.mem_map.mp hr with ⟨ent, _, rfl⟩
        simp

/-- Witness for C9: both rectangularity conjuncts evaluated at a ragged
input table and a two-entity list with differing field sets. -/
theorem C9_transform_rectangular_witness :
    (∀ r ∈ (normalizeTable_ [["a"], ["b", "c", "d"], []]).data,
        r.length = (normalizeTable_ [["a"], ["b", "c", "d"], []]).cols)
      ∧ (∀ r ∈ (convertEntitiesToSheetData
            [[("Id", "1"), ("Name", "x")], [("Id", "2")]]).data,
          r.length = (convertEntitiesToSheetData
            [[("Id", "1"), ("Name", "x")], [("Id", "2")]]).cols) :=
  ⟨((C9_transform_rectangular.1 [["a"], ["b", "c", "d"], []]).1),
   (C9_transform_rectangular.2 [[("Id", "1"), ("Name", "x")], [("Id", "2")]])⟩

/-! ## Dataset index uniqueness (C10) -/

/-- `updateDatasetsIndex` preserves index uniqueness. -/
theorem updateDatasetsIndex_nodup (l : List String) (id action : String)
    (h : l.Nodup) : (updateDatasetsIndex l id action).Nodup := by
  simp only [updateDatasetsIndex]
  split_ifs with ha hc hr
  · exact h
  · have hid : id ∉ l := by simpa using hc
    refine List.Nodup.append h (List.nodup_singleton id) ?_
    intro a ha1 ha2
    rw [List.mem_singleton] at ha2
    subst ha2
    exact hid ha1
  · exact h.filter _
  · exact h

/-- **C10 (as stated, with the store well-keyed).** Any sequence of
`updateDatasetsIndex` operations starting from the empty index yields an
index without duplicate ids, and `getDatasets` over a duplicate-free index
(with a store whose record ids match their keys) never returns the same
dataset id twice. -/
theorem C10_index_unique :
    (∀ ops : List (String × String),
        (ops.foldl (fun acc op => updateDatasetsIndex acc op.1 op.2) []).Nodup)
      ∧ (∀ (store : String → Option Dataset) (index : List String),
          index.Nodup → (∀ id d, store id = some d → d.id = id) →
            ((getDatasets store index).map Dataset.id).Nodup) := by
  constructor
  · intro ops
    suffices h : ∀ l : List String, l.Nodup →
        (ops.foldl (fun acc op => updateDatasetsIndex acc op.1 op.2) l).Nodup from
      h [] List.nodup_nil
    induction ops with
    | nil => intro l hl; exact hl
    | cons op rest ih =>
      intro l hl
      exact ih _ (updateDatasetsIndex_nodup l op.1 op.2 hl)
  · intro store index hnd hkey
    rw [getDatasets, List.map_filterMap]
    refine List.Nodup.filterMap ?_ hnd
    intro a a' b hb hb'
    simp only [Option.mem_def] at hb hb'
    cases hsa : store a with
    | none => simp [hsa] at hb
    | some d =>
      cases hsa2 : store a' with
      | none => simp [hsa2] at hb'
      | some d2 =>
        simp only [hsa, Option.map_some'] at hb
        simp only [hsa2, Option.map_some'] at hb'
        have h1 : d.id = b := Option.some.inj hb
        have h2 : d2.id = b := Option.some.inj hb'
        rw [← hkey a d hsa, ← hkey a' d2 hsa2, h1, h2]

/-- Witness for C10: the `getDatasets` conjunct at a concrete store/index. -/
theorem C10_index_unique_witness :
    ((getDatasets (fun _ => none) ["a", "b"]).map Dataset.id).Nodup :=
  C10_index_unique.2 (fun _ => none) ["a", "b"] (by decide)
    (fun _ d h => Option.noConfusion h)

/-! ## Job state machine (C5) -/

/-- Dropping the terminal snapshot leaves the initial and progress
snapshots. -/
theorem snaps_dropLast (s0 s10 fin : JobSnap) (l : List JobSnap) :
    (s0 :: s10 :: l ++ [fin]).dropLast = s0 :: s10 :: l := by
  rw [show s0 :: s10 :: l ++ [fin] = (s0 :: s10 :: l) ++ [fin] by simp]
  exact List.dropLast_concat

/-- The last stored snapshot is the terminal one. -/
theorem snaps_getLast (s0 s10 fin : JobSnap) (l : List JobSnap) :
    (s0 :: s10 :: l ++ [fin]).getLast? = some fin := by
  rw [show s0 :: s10 :: l ++ [fin] = (s0 :: s10 :: l) ++ [fin] by simp]
  exact List.getLast?_concat _

/-- The first job snapshot stored is `running` with progress 0. -/
theorem mkRunTrace_head
    (sub : List (Nat × String) × List CellMutation × Except String RunResult) :
    (mkRunTrace sub).snaps.head? =
      some ⟨.running, 0, "Initializing...", none, false⟩ := by
  rcases sub with ⟨pre, evs, out⟩
  cases out <;> rfl

/-- Every snapshot before the last one is `running`. -/
theorem mkRunTrace_dropLast_running
    (sub : List (Nat × String) × List CellMutation × Except String RunResult) :
    ∀ s ∈ (mkRunTrace sub).snaps.dropLast, s.status = .running := by
  rcases sub with ⟨pre, evs, out⟩
  have hmem : ∀ (l : List (Nat × String)) (s : JobSnap) (s0 s10 : JobSnap),
      s0.status = .running → s10.status = .running →
      s ∈ s0 :: s10 :: l.map mkProgressSnap → s.status = .running := by
    intro l s s0 s10 h0 h10 hs
    rcases List.mem_cons.mp hs with rfl | hs
    · exact h0
    rcases List.mem_cons.mp hs with rfl | hs
    · exact h10
    rcases List.mem_map.mp hs with ⟨p, _, rfl⟩
    rfl
  cases out with
  | ok r =>
    intro s hs
    rw [show (mkRunTrace (pre, evs, Except.ok r)).snaps =
        ⟨.running, 0, "Initializing...", none, false⟩ ::
          mkProgressSnap (10, "Connecting to QuickBooks...") ::
          pre.map mkProgressSnap ++
          [⟨.completed, 100, "Dataset run completed successfully", none, true⟩]
      from rfl, snaps_dropLast] at hs
    exact hmem pre s _ _ rfl rfl hs
  | error e =>
    intro s hs
    rw [show (mkRunTrace (pre, evs, Except.error e)).snaps =
        ⟨.running, 0, "Initializing...", none, false⟩ ::
          mkProgressSnap (10, "Connecting to QuickBooks...") ::
          pre.map mkProgressSnap ++
          [⟨.failed, 0, "Dataset run failed: " ++ e, some e, false⟩]
      from rfl, snaps_dropLast] at hs
    exact hmem pre s _ _ rfl rfl hs

/-- A snapshot list whose prefix is all `running` and whose last element is
terminal contains exactly one terminal snapshot. -/
theorem filter_terminal_snaps (s0 s10 fin : JobSnap) (l : List (Nat × String))
    (h0 : s0.status = .running) (h10 : s10.status = .running)
    (hfin : fin.status ≠ .running) :
    ((s0 :: s10 :: l.map mkProgressSnap ++ [fin]).filter
      (fun s => decide (s.status ≠ JobStatus.running))).length = 1 := by
  rw [show s0 :: s10 :: l.map mkProgressSnap ++ [fin]
      = (s0 :: s10 :: l.map mkProgressSnap) ++ [fin] by simp,
    List.filter_append]
  have hnil : (s0 :: s10 :: l.map mkProgressSnap).filter
      (fun s => decide (s.status ≠ JobStatus.running)) = [] := by
    rw [List.filter_eq_nil_iff]
    intro a ha
    rcases List.mem_cons.mp ha with rfl | ha
    · simp [h0]
    rcases List.mem_cons.mp ha with rfl | ha
    · simp [h10]
    rcases List.mem_map.mp ha with ⟨p, _, rfl⟩
    simp [mkProgressSnap]
  rw [hnil, List.nil_append]
  simp [hfin]

/-- Exactly one stored snapshot is terminal (not `running`): the job
transitions exactly once to a terminal status. -/
theorem mkRunTrace_terminal_once
    (sub : List (Nat × String) × List CellMutation × Except String RunResult) :
    ((mkRunTrace sub).snaps.filter
      (fun s => decide (s.status ≠ .running))).length = 1 := by
  rcases sub with ⟨pre, evs, out⟩
  cases out with
  | ok r => exact filter_terminal_snaps _ _ _ pre rfl rfl (by decide)
  | error e => exact filter_terminal_snaps _ _ _ pre rfl rfl (by simp)

/-- A successful run ends `completed` with the result recorded and the
registry update carrying the run's `lastWrite`. -/
theorem mkRunTrace_of_ok
    (sub : List (Nat × String) × List CellMutation × Except String RunResult)
    (u : Unit) (h : (mkRunTrace sub).result = .ok u) :
    (mkRunTrace sub).registryLastWrite.isSome = true
      ∧ (mkRunTrace sub).snaps.getLast? =
          some ⟨.completed, 100, "Dataset run completed successfully", none,
            true⟩ := by
  rcases sub with ⟨pre, evs, out⟩
  cases out with
  | ok r =>
    refine ⟨rfl, ?_⟩
    show (_ :: _ :: pre.map mkProgressSnap ++ [_]).getLast? = _
    rw [snaps_getLast]
  | error e => exact absurd h (by simp [mkRunTrace])

/-- A failed run ends `failed` with the error recorded and no registry
update. -/
theorem mkRunTrace_of_error
    (sub : List (Nat × String) × List CellMutation × Except String RunResult)
    (e : String) (h : (mkRunTrace sub).result = .error e) :
    (mkRunTrace sub).registryLastWrite = none
      ∧ (mkRunTrace sub).snaps.getLast? =
          some ⟨.failed, 0, "Dataset run failed: " ++ e, some e, false⟩ := by
  rcases sub with ⟨pre, evs, out⟩
  cases out with
  | ok r => exact absurd h (by simp [mkRunTrace])
  | error e0 =>
    have he : e0 = e := by
      have := h
      simp only [mkRunTrace] at this
      exact Except.error.inj this
    subst he
    refine ⟨rfl, ?_⟩
    show (_ :: _ :: pre.map mkProgressSnap ++ [_]).getLast? = _
    rw [snaps_getLast]

/-- **C5 (as stated).** For an existing dataset, the Job created by
`runDataset` starts as `running` with progress 0, every snapshot before the
terminal one is `running`, exactly one stored snapshot is terminal, and the
terminal snapshot is `completed` (progress 100, result recorded, registry
`lastWrite` update issued) exactly when the run returns, or `failed` with
the error string recorded exactly when the run throws; `runDataset`
performs no retry — one sub-run, one terminal transition. -/
theorem C5_job_state_machine (d : Dataset) (env : RunEnv) :
    ((runDataset (some d) env).snaps.head? =
        some ⟨.running, 0, "Initializing...", none, false⟩)
      ∧ (∀ s ∈ (runDataset (some d) env).snaps.dropLast, s.status = .running)
      ∧ (((runDataset (some d) env).snaps.filter
            (fun s => decide (s.status ≠ .running))).length = 1)
      ∧ (∀ u, (runDataset (some d) env).result = .ok u →
          (runDataset (some d) env).registryLastWrite.isSome = true
            ∧ (runDataset (some d) env).snaps.getLast? =
                some ⟨.completed, 100, "Dataset run completed successfully",
                  none, true⟩)
      ∧ (∀ e, (runDataset (some d) env).result = .error e →
          (runDataset (some d) env).registryLastWrite = none
            ∧ (runDataset (some d) env).snaps.getLast? =
                some ⟨.failed, 0, "Dataset run failed: " ++ e, some e, false⟩) := by
  refine ⟨mkRunTrace_head _, mkRunTrace_dropLast_running _,
    mkRunTrace_terminal_once _, ?_, ?_⟩
  · intro u h
    exact mkRunTrace_of_ok _ u h
  · intro e h
    exact mkRunTrace_of_error _ e h

/-- Witness for C5: a dataset of unknown type fails in one terminal
transition; concrete head/terminal-count facts. -/
theorem C5_job_state_machine_witness :
    ((runDataset (some
        { id := "d1", type := "bogus", name := "ds", hasParams := true,
          reportType := "", queryTokens := [], target := none, pagStart := 1,
          pagMax := 1000, schedule := none, lastWrite := none })
        ⟨.error "offline", [], [], 0, 0⟩).snaps.head? =
          some ⟨.running, 0, "Initializing...", none, false⟩)
      ∧ ((runDataset (some
          { id := "d1", type := "bogus", name := "ds", hasParams := true,
            reportType := "", queryTokens := [], target := none, pagStart := 1,
            pagMax := 1000, schedule := none, lastWrite := none })
          ⟨.error "offline", [], [], 0, 0⟩).registryLastWrite = none) :=
  ⟨(C5_job_state_machine
      { id := "d1", type := "bogus", name := "ds", hasParams := true,
        reportType := "", queryTokens := [], target := none, pagStart := 1,
        pagMax := 1000, schedule := none, lastWrite := none }
      ⟨.error "offline", [], [], 0, 0⟩).1,
   ((C5_job_state_machine
      { id := "d1", type := "bogus", name := "ds", hasParams := true,
        reportType := "", queryTokens := [], target := none, pagStart := 1,
        pagMax := 1000, schedule := none, lastWrite := none }
      ⟨.error "offline", [], [], 0, 0⟩).2.2.2.2
      "Unknown dataset type: bogus" rfl).1⟩

/-! ## Scheduler: locking and orphaned triggers (C6, C7) -/

/-- When the forward mapping points at trigger `t`, `removeScheduleTrigger`
deletes the live trigger and both stored mappings. -/
theorem removeScheduleTrigger_removes (st : SchedState) (did t : String)
    (hfwd : alistFind st.fwdMap did = some t) :
    t ∉ (removeScheduleTrigger st did).1.triggers
      ∧ alistFind (removeScheduleTrigger st did).1.fwdMap did = none
      ∧ alistFind (removeScheduleTrigger st did).1.revMap t = none := by
  simp only [removeScheduleTrigger, hfwd]
  refine ⟨?_, ?_, ?_⟩
  · intro hm
    rcases List.mem_filter.mp hm with ⟨-, hne⟩
    simp at hne
  · have hfind : (st.fwdMap.filter fun kv => kv.1 ≠ did).find?
        (fun kv => kv.1 == did) = none := by
      rw [List.find?_eq_none]
      intro x hx
      rcases List.mem_filter.mp hx with ⟨-, hne⟩
      simp at hne ⊢
      exact hne
    simp [alistFind, hfind]
  · have hfind : (st.revMap.filter fun kv => kv.1 ≠ t).find?
        (fun kv => kv.1 == t) = none := by
      rw [List.find?_eq_none]
      intro x hx
      rcases List.mem_filter.mp hx with ⟨-, hne⟩
      simp at hne ⊢
      exact hne
    simp [alistFind, hfind]

/-- **C6 (as stated).** For a trigger fire resolving to an existing,
enabled dataset: if the user lock cannot be acquired the run is skipped —
logged as a skip, no dataset execution, no document write, state untouched;
if the lock is acquired, it is always released afterwards, whatever the
dataset run does (including throwing). -/
theorem C6_lock_skip_and_failsafe_release (st : SchedState) (t did : String)
    (d : Dataset) (env : RunEnv)
    (hrev : alistFind st.revMap t = some did)
    (hds : alistFind st.datasets did = some d)
    (hen : d.schedule = some true) :
    ((scheduledDatasetRun st (some t) false env).ran = false
        ∧ (scheduledDatasetRun st (some t) false env).skipLogged = true
        ∧ (scheduledDatasetRun st (some t) false env).trace = none
        ∧ (scheduledDatasetRun st (some t) false env).state = st
        ∧ (scheduledDatasetRun st (some t) false env).lockAcquired = false)
      ∧ ((scheduledDatasetRun st (some t) true env).lockAcquired = true
        ∧ (scheduledDatasetRun st (some t) true env).lockReleased = true) := by
  constructor
  · simp only [scheduledDatasetRun, hrev, hds]
    rw [if_neg (by simp [hen]), if_pos (show (!false) = true from rfl)]
    refine ⟨?_, ?_, ?_, ?_, ?_⟩ <;> trivial
  · simp only [scheduledDatasetRun, hrev, hds]
    rw [if_neg (by simp [hen]), if_neg (show ¬(!true) = true by decide)]
    refine ⟨?_, ?_⟩ <;> trivial

/-- Witness for C6 at a concrete state: lock contention skips (no run, skip
logged) and an acquired lock is released even though the run fails. -/
theorem C6_lock_skip_and_failsafe_release_witness :
    ((scheduledDatasetRun
        ⟨[("t1", "d1")], [("d1", "t1")],
         [("d1", { id := "d1", type := "bogus", name := "ds", hasParams := true,
                   reportType := "", queryTokens := [], target := none,
                   pagStart := 1, pagMax := 1000, schedule := some true,
                   lastWrite := none })], ["t1"]⟩
        (some "t1") false ⟨.error "offline", [], [], 0, 0⟩).ran = false)
      ∧ ((scheduledDatasetRun
          ⟨[("t1", "d1")], [("d1", "t1")],
           [("d1", { id := "d1", type := "bogus", name := "ds", hasParams := true,
                     reportType := "", queryTokens := [], target := none,
                     pagStart := 1, pagMax := 1000, schedule := some true,
                     lastWrite := none })], ["t1"]⟩
          (some "t1") true ⟨.error "offline", [], [], 0, 0⟩).lockReleased = true) :=
  ⟨(C6_lock_skip_and_failsafe_release
      ⟨[("t1", "d1")], [("d1", "t1")],
       [("d1", { id := "d1", type := "bogus", name := "ds", hasParams := true,
                 reportType := "", queryTokens := [], target := none,
                 pagStart := 1, pagMax := 1000, schedule := some true,
                 lastWrite := none })], ["t1"]⟩
      "t1" "d1" _ ⟨.error "offline", [], [], 0, 0⟩ rfl rfl rfl).1.1,
   (C6_lock_skip_and_failsafe_release
      ⟨[("t1", "d1")], [("d1", "t1")],
       [("d1", { id := "d1", type := "bogus", name := "ds", hasParams := true,
                 reportType := "", queryTokens := [], target := none,
                 pagStart := 1, pagMax := 1000, schedule := some true,
                 lastWrite := none })], ["t1"]⟩
      "t1" "d1" _ ⟨.error "offline", [], [], 0, 0⟩ rfl rfl rfl).2.2⟩

/-- **C7 (as stated, with the forward mapping consistent).** A trigger fire
whose dataset no longer exists, or whose schedule is disabled or absent,
never executes a dataset run: no lock is taken, no run trace is produced,
and the orphaned trigger is deleted together with both of its stored id
mappings. -/
theorem C7_orphaned_trigger_cleanup (st : SchedState) (t did : String)
    (env : RunEnv) (lock : Bool)
    (hrev : alistFind st.revMap t = some did)
    (hfwd : alistFind st.fwdMap did = some t)
    (horph : alistFind st.datasets did = none
      ∨ ∃ d, alistFind st.datasets did = some d ∧ d.schedule ≠ some true) :
    (scheduledDatasetRun st (some t) lock env).ran = false
      ∧ (scheduledDatasetRun st (some t) lock env).trace = none
      ∧ (scheduledDatasetRun st (some t) lock env).lockAcquired = false
      ∧ t ∉ (scheduledDatasetRun st (some t) lock env).state.triggers
      ∧ alistFind (scheduledDatasetRun st (some t) lock env).state.fwdMap did = none
      ∧ alistFind (scheduledDatasetRun st (some t) lock env).state.revMap t
          = none := by
  rcases horph with hnone | ⟨d, hds, hdis⟩
  · simp only [scheduledDatasetRun, hrev, hnone]
    exact ⟨by trivial, by trivial, by trivial,
      (removeScheduleTrigger_removes st did t hfwd).1,
      (removeScheduleTrigger_removes st did t hfwd).2.1,
      (removeScheduleTrigger_removes st did t hfwd).2.2⟩
  · simp only [scheduledDatasetRun, hrev, hds]
    rw [if_pos hdis]
    exact ⟨by trivial, by trivial, by trivial,
      (removeScheduleTrigger_removes st did t hfwd).1,
      (removeScheduleTrigger_removes st did t hfwd).2.1,
      (removeScheduleTrigger_removes st did t hfwd).2.2⟩

/-- Witness for C7: firing a trigger whose dataset has
`schedule.enabled = false` performs no run and removes the trigger. -/
theorem C7_orphaned_trigger_cleanup_witness :
    ((scheduledDatasetRun
        ⟨[("t1", "d1")], [("d1", "t1")],
         [("d1", { id := "d1", type := "bogus", name := "ds", hasParams := true,
                   reportType := "", queryTokens := [], target := none,
                   pagStart := 1, pagMax := 1000, schedule := some false,
                   lastWrite := none })], ["t1"]⟩
        (some "t1") true ⟨.error "offline", [], [], 0, 0⟩).ran = false)
      ∧ "t1" ∉ (scheduledDatasetRun
          ⟨[("t1", "d1")], [("d1", "t1")],
           [("d1", { id := "d1", type := "bogus", name := "ds", hasParams := true,
                     reportType := "", queryTokens := [], target := none,
                     pagStart := 1, pagMax := 1000, schedule := some false,
                     lastWrite := none })], ["t1"]⟩
          (some "t1") true ⟨.error "offline", [], [], 0, 0⟩).state.triggers :=
  ⟨(C7_orphaned_trigger_cleanup
      ⟨[("t1", "d1")], [("d1", "t1")],
       [("d1", { id := "d1", type := "bogus", name := "ds", hasParams := true,
                 reportType := "", queryTokens := [], target := none,
                 pagStart := 1, pagMax := 1000, schedule := some false,
                 lastWrite := none })], ["t1"]⟩
      "t1" "d1" ⟨.error "offline", [], [], 0, 0⟩ true rfl rfl
      (Or.inr ⟨_, rfl, by decide⟩)).1,
   (C7_orphaned_trigger_cleanup
      ⟨[("t1", "d1")], [("d1", "t1")],
       [("d1", { id := "d1", type := "bogus", name := "ds", hasParams := true,
                 reportType := "", queryTokens := [], target := none,
                 pagStart := 1, pagMax := 1000, schedule := some false,
                 lastWrite := none })], ["t1"]⟩
      "t1" "d1" ⟨.error "offline", [], [], 0, 0⟩ true rfl rfl
      (Or.inr ⟨_, rfl, by decide⟩)).2.2.2.1⟩
